import Mathlib

/-!
# Property mirror and change-signal reconciliation of the BlueZ bindings

A shallow embedding of `bluez/profile/device/gen_Device1.go` and
`bluez/profile/obex/gen_PhonebookAccess1.go`.

* Go values that travel inside a `dbus.Variant` are the type `Val`; their dynamic Go
  type is `Val.typeOf`.
* `Device1Properties` and `PhonebookAccess1Properties` are the two properties structs,
  field for field (the `lock` mutex holds no data and is kept only as a field name that
  `FieldByName` can find).
* The goroutine started by `WatchProperties` is a step function on a `Watcher` state:
  one step consumes one value received from the input signal channel.
* A Go panic is the status `faulted` of the goroutine, or the result `none` of a method.
* The structs `Device1` and `PhonebookAccess1` are the type `Binding`; what a method does
  outside the binding (calls to the client and the object manager, sends of nil) is the
  list of `Effect` of its `Outcome`, and what the transport returns is a parameter of the
  method.
-/

namespace Bluez

/-! ## Go values carried by D-Bus variants -/

/-- The element values of the map-typed properties. The documentation of
`AdvertisingData`, `ManufacturerData` and `ServiceData` in `Device1Properties` describes
them as byte arrays. -/
abbrev Bytes := List Nat

/-- The dynamic Go types of the values that a `dbus.Variant` of a property can hold. -/
inductive GoType where
  | uint8
  | uint16
  | uint32
  | int16
  | bool
  | string
  | objectPath
  | byteSlice
  | stringSlice
  | mapStringInterface
  | mapUint16Interface
  | mapStringVariant
  | mapUint16Variant
  deriving DecidableEq, Repr

/-- Go assignability between the types of `GoType`. None of them is an interface type,
every scalar one is a defined type (`dbus.ObjectPath` is defined with underlying type
`string`, and is not assignable from or to `string`), and the composite ones have pairwise
different underlying types: a value is assignable exactly to its own type. -/
def GoType.AssignableTo (x t : GoType) : Bool := x == t

/-- The result of `Variant.Value()`: an `interface{}` value, `nil` or a value of one
of the types of `GoType`. Integers are kept as `Nat` and `Int`; nothing here does
arithmetic on them. -/
inductive Val where
  | nil
  | uint8 (n : Nat)
  | uint16 (n : Nat)
  | uint32 (n : Nat)
  | int16 (i : Int)
  | bool (b : Bool)
  | string (s : String)
  | objectPath (s : String)
  | byteSlice (l : Bytes)
  | stringSlice (l : List String)
  | mapStringInterface (m : List (String × Bytes))
  | mapUint16Interface (m : List (Nat × Bytes))
  | mapStringVariant (m : List (String × Bytes))
  | mapUint16Variant (m : List (Nat × Bytes))
  deriving DecidableEq, Repr

/-- The dynamic type of a value; `nil` has none (`reflect.ValueOf(nil)` is the zero
`reflect.Value`). -/
def Val.typeOf : Val → Option GoType
  | .nil => none
  | .uint8 _ => some .uint8
  | .uint16 _ => some .uint16
  | .uint32 _ => some .uint32
  | .int16 _ => some .int16
  | .bool _ => some .bool
  | .string _ => some .string
  | .objectPath _ => some .objectPath
  | .byteSlice _ => some .byteSlice
  | .stringSlice _ => some .stringSlice
  | .mapStringInterface _ => some .mapStringInterface
  | .mapUint16Interface _ => some .mapUint16Interface
  | .mapStringVariant _ => some .mapStringVariant
  | .mapUint16Variant _ => some .mapUint16Variant

/-! ## Reflection over a properties struct -/

/-- What `reflect.Value.FieldByName` finds in a properties struct: the unexported `lock`
or one of the exported fields `F`. -/
inductive StructField (F : Type) where
  | lock
  | exported (f : F)
  deriving DecidableEq, Repr

/-- The method `CanSet` of a field of an addressable struct: false exactly for a field
obtained through an unexported name. -/
def StructField.CanSet {F : Type} : StructField F → Bool
  | .lock => false
  | .exported _ => true

/-- The part of package `reflect` that `WatchProperties` uses on a properties struct `R`
with exported fields `F`. -/
structure StructType (R F : Type) where
  /-- The Go name of a field. -/
  fieldName : F → String
  /-- The declared type of a field. -/
  fieldType : F → GoType
  /-- The method `FieldByName`: `none` is the zero `reflect.Value` (`IsValid` false). -/
  FieldByName : String → Option (StructField F)
  /-- The method `Interface` of a field: its current value. -/
  Interface : R → F → Val
  /-- The method `Set` of a field; `none` is the panic of `reflect` when the value is
  the zero `reflect.Value` or its type is not assignable to the type of the field. -/
  Set : R → F → Val → Option R

/-! ## Device1Properties -/

/-- The struct `Device1Properties` (without its mutex). -/
structure Device1Properties where
  Appearance : Nat
  UUIDs : List String
  Connected : Bool
  RSSI : Int
  ServicesResolved : Bool
  AdvertisingFlags : Bytes
  Alias : String
  AdvertisingData : List (String × Bytes)
  ManufacturerData : List (Nat × Bytes)
  ServiceData : List (String × Bytes)
  Address : String
  Icon : String
  Class : Nat
  Trusted : Bool
  Blocked : Bool
  TxPower : Int
  AddressType : String
  Name : String
  Paired : Bool
  Adapter : String
  LegacyPairing : Bool
  Modalias : String
  deriving DecidableEq, Repr

/-- The exported fields of `Device1Properties`, in declaration order. -/
inductive Device1Field where
  | Appearance
  | UUIDs
  | Connected
  | RSSI
  | ServicesResolved
  | AdvertisingFlags
  | Alias
  | AdvertisingData
  | ManufacturerData
  | ServiceData
  | Address
  | Icon
  | Class
  | Trusted
  | Blocked
  | TxPower
  | AddressType
  | Name
  | Paired
  | Adapter
  | LegacyPairing
  | Modalias
  deriving DecidableEq, Repr

/-- The Go name of a field of `Device1Properties`. -/
def Device1Field.fieldName : Device1Field → String
  | .Appearance => "Appearance"
  | .UUIDs => "UUIDs"
  | .Connected => "Connected"
  | .RSSI => "RSSI"
  | .ServicesResolved => "ServicesResolved"
  | .AdvertisingFlags => "AdvertisingFlags"
  | .Alias => "Alias"
  | .AdvertisingData => "AdvertisingData"
  | .ManufacturerData => "ManufacturerData"
  | .ServiceData => "ServiceData"
  | .Address => "Address"
  | .Icon => "Icon"
  | .Class => "Class"
  | .Trusted => "Trusted"
  | .Blocked => "Blocked"
  | .TxPower => "TxPower"
  | .AddressType => "AddressType"
  | .Name => "Name"
  | .Paired => "Paired"
  | .Adapter => "Adapter"
  | .LegacyPairing => "LegacyPairing"
  | .Modalias => "Modalias"

/-- The declared type of a field of `Device1Properties`. -/
def Device1Field.fieldType : Device1Field → GoType
  | .Appearance => .uint16
  | .UUIDs => .stringSlice
  | .Connected => .bool
  | .RSSI => .int16
  | .ServicesResolved => .bool
  | .AdvertisingFlags => .byteSlice
  | .Alias => .string
  | .AdvertisingData => .mapStringInterface
  | .ManufacturerData => .mapUint16Interface
  | .ServiceData => .mapStringInterface
  | .Address => .string
  | .Icon => .string
  | .Class => .uint32
  | .Trusted => .bool
  | .Blocked => .bool
  | .TxPower => .int16
  | .AddressType => .string
  | .Name => .string
  | .Paired => .bool
  | .Adapter => .objectPath
  | .LegacyPairing => .bool
  | .Modalias => .string

/-- All exported fields of `Device1Properties`, in declaration order. -/
def Device1Field.all : List Device1Field :=
  [.Appearance, .UUIDs, .Connected, .RSSI, .ServicesResolved, .AdvertisingFlags, .Alias,
   .AdvertisingData, .ManufacturerData, .ServiceData, .Address, .Icon, .Class, .Trusted,
   .Blocked, .TxPower, .AddressType, .Name, .Paired, .Adapter, .LegacyPairing, .Modalias]

/-- The method `FieldByName` on `Device1Properties`: the field of that exact name, the
unexported `lock` included. -/
def Device1Properties.FieldByName (name : String) : Option (StructField Device1Field) :=
  if name = "lock" then some .lock
  else (Device1Field.all.find? (fun f => f.fieldName == name)).map .exported

/-- The current value of a field of `Device1Properties`. -/
def Device1Properties.Interface (p : Device1Properties) : Device1Field → Val
  | .Appearance => .uint16 p.Appearance
  | .UUIDs => .stringSlice p.UUIDs
  | .Connected => .bool p.Connected
  | .RSSI => .int16 p.RSSI
  | .ServicesResolved => .bool p.ServicesResolved
  | .AdvertisingFlags => .byteSlice p.AdvertisingFlags
  | .Alias => .string p.Alias
  | .AdvertisingData => .mapStringInterface p.AdvertisingData
  | .ManufacturerData => .mapUint16Interface p.ManufacturerData
  | .ServiceData => .mapStringInterface p.ServiceData
  | .Address => .string p.Address
  | .Icon => .string p.Icon
  | .Class => .uint32 p.Class
  | .Trusted => .bool p.Trusted
  | .Blocked => .bool p.Blocked
  | .TxPower => .int16 p.TxPower
  | .AddressType => .string p.AddressType
  | .Name => .string p.Name
  | .Paired => .bool p.Paired
  | .Adapter => .objectPath p.Adapter
  | .LegacyPairing => .bool p.LegacyPairing
  | .Modalias => .string p.Modalias

/-- The method `Set` on a field of `Device1Properties`: stores a value of the type of
the field, panics (`none`) on any other value. -/
def Device1Properties.Set (p : Device1Properties) : Device1Field → Val → Option Device1Properties
  | .Appearance, .uint16 n => some { p with Appearance := n }
  | .UUIDs, .stringSlice l => some { p with UUIDs := l }
  | .Connected, .bool b => some { p with Connected := b }
  | .RSSI, .int16 i => some { p with RSSI := i }
  | .ServicesResolved, .bool b => some { p with ServicesResolved := b }
  | .AdvertisingFlags, .byteSlice l => some { p with AdvertisingFlags := l }
  | .Alias, .string s => some { p with Alias := s }
  | .AdvertisingData, .mapStringInterface m => some { p with AdvertisingData := m }
  | .ManufacturerData, .mapUint16Interface m => some { p with ManufacturerData := m }
  | .ServiceData, .mapStringInterface m => some { p with ServiceData := m }
  | .Address, .string s => some { p with Address := s }
  | .Icon, .string s => some { p with Icon := s }
  | .Class, .uint32 n => some { p with Class := n }
  | .Trusted, .bool b => some { p with Trusted := b }
  | .Blocked, .bool b => some { p with Blocked := b }
  | .TxPower, .int16 i => some { p with TxPower := i }
  | .AddressType, .string s => some { p with AddressType := s }
  | .Name, .string s => some { p with Name := s }
  | .Paired, .bool b => some { p with Paired := b }
  | .Adapter, .objectPath s => some { p with Adapter := s }
  | .LegacyPairing, .bool b => some { p with LegacyPairing := b }
  | .Modalias, .string s => some { p with Modalias := s }
  | _, _ => none

/-- Reflection over `Device1Properties`. -/
def Device1Properties.reflect : StructType Device1Properties Device1Field where
  fieldName := Device1Field.fieldName
  fieldType := Device1Field.fieldType
  FieldByName := Device1Properties.FieldByName
  Interface := Device1Properties.Interface
  Set := Device1Properties.Set

/-! ## PhonebookAccess1Properties -/

/-- The struct `PhonebookAccess1Properties` (without its mutex). -/
structure PhonebookAccess1Properties where
  FixedImageSize : Bool
  Folder : String
  DatabaseIdentifier : String
  PrimaryCounter : String
  SecondaryCounter : String
  deriving DecidableEq, Repr

/-- The exported fields of `PhonebookAccess1Properties`, in declaration order. -/
inductive PhonebookAccess1Field where
  | FixedImageSize
  | Folder
  | DatabaseIdentifier
  | PrimaryCounter
  | SecondaryCounter
  deriving DecidableEq, Repr

/-- The Go name of a field of `PhonebookAccess1Properties`. -/
def PhonebookAccess1Field.fieldName : PhonebookAccess1Field → String
  | .FixedImageSize => "FixedImageSize"
  | .Folder => "Folder"
  | .DatabaseIdentifier => "DatabaseIdentifier"
  | .PrimaryCounter => "PrimaryCounter"
  | .SecondaryCounter => "SecondaryCounter"

/-- The declared type of a field of `PhonebookAccess1Properties`. -/
def PhonebookAccess1Field.fieldType : PhonebookAccess1Field → GoType
  | .FixedImageSize => .bool
  | .Folder => .string
  | .DatabaseIdentifier => .string
  | .PrimaryCounter => .string
  | .SecondaryCounter => .string

/-- All exported fields of `PhonebookAccess1Properties`, in declaration order. -/
def PhonebookAccess1Field.all : List PhonebookAccess1Field :=
  [.FixedImageSize, .Folder, .DatabaseIdentifier, .PrimaryCounter, .SecondaryCounter]

/-- The method `FieldByName` on `PhonebookAccess1Properties`: the field of that exact
name, the unexported `lock` included. -/
def PhonebookAccess1Properties.FieldByName (name : String) :
    Option (StructField PhonebookAccess1Field) :=
  if name = "lock" then some .lock
  else (PhonebookAccess1Field.all.find? (fun f => f.fieldName == name)).map .exported

/-- The current value of a field of `PhonebookAccess1Properties`. -/
def PhonebookAccess1Properties.Interface (p : PhonebookAccess1Properties) :
    PhonebookAccess1Field → Val
  | .FixedImageSize => .bool p.FixedImageSize
  | .Folder => .string p.Folder
  | .DatabaseIdentifier => .string p.DatabaseIdentifier
  | .PrimaryCounter => .string p.PrimaryCounter
  | .SecondaryCounter => .string p.SecondaryCounter

/-- The method `Set` on a field of `PhonebookAccess1Properties`: stores a value of the
type of the field, panics (`none`) on any other value. -/
def PhonebookAccess1Properties.Set (p : PhonebookAccess1Properties) :
    PhonebookAccess1Field → Val → Option PhonebookAccess1Properties
  | .FixedImageSize, .bool b => some { p with FixedImageSize := b }
  | .Folder, .string s => some { p with Folder := s }
  | .DatabaseIdentifier, .string s => some { p with DatabaseIdentifier := s }
  | .PrimaryCounter, .string s => some { p with PrimaryCounter := s }
  | .SecondaryCounter, .string s => some { p with SecondaryCounter := s }
  | _, _ => none

/-- Reflection over `PhonebookAccess1Properties`. -/
def PhonebookAccess1Properties.reflect :
    StructType PhonebookAccess1Properties PhonebookAccess1Field where
  fieldName := PhonebookAccess1Field.fieldName
  fieldType := PhonebookAccess1Field.fieldType
  FieldByName := PhonebookAccess1Properties.FieldByName
  Interface := PhonebookAccess1Properties.Interface
  Set := PhonebookAccess1Properties.Set

/-! ## Signals, events and the watcher -/

/-- The variable `Device1Interface`: the interface name of the device binding. -/
def Device1Interface : String := "org.bluez.Device1"

/-- The variable `PhonebookAccess1Interface`: the interface name of the phonebook
binding. -/
def PhonebookAccess1Interface : String := "org.bluez.obex.PhonebookAccess1"

/-- The struct `bluez.Config` of a client (the bus kind is left out). -/
structure Config where
  Name : String
  Iface : String
  Path : String
  deriving DecidableEq, Repr

/-- The entries of a Go `map[string]dbus.Variant`, each with the result of `Value()` of
its variant. The keys of a map are pairwise different. -/
abbrev VariantMap := List (String × Val)

/-- An element of the `Body []interface{}` of a signal. -/
inductive BodyVal where
  | string (s : String)
  | mapStringVariant (m : VariantMap)
  | stringSlice (l : List String)
  | other (v : Val)
  deriving DecidableEq, Repr

/-- The struct `dbus.Signal`. -/
structure Signal where
  Sender : String
  Path : String
  Name : String
  Body : List BodyVal
  deriving DecidableEq, Repr

/-- The struct `bluez.PropertyChanged`. -/
structure PropertyChanged where
  Interface : String
  Name : String
  Value : Val
  deriving DecidableEq, Repr

/-- The order in which one `range` statement visits the entries of a map. Go leaves it
unspecified: it is an input of the model. -/
abbrev MapRange := VariantMap → VariantMap

/-- A `range` visits every entry of the map exactly once. -/
def MapRange.Valid (range : MapRange) : Prop := ∀ m, (range m).Perm m

/-- Whether the goroutine of `WatchProperties` is still in its loop, has returned, or
has panicked. -/
inductive Status where
  | running
  | exited
  | faulted
  deriving DecidableEq, Repr

/-- One completed send on the channel `ch`: the pointer sent (`none` is `nil`), and the
properties struct as it is at the moment of the send. -/
structure Sent (R : Type) where
  value : Option PropertyChanged
  props : R
  deriving DecidableEq, Repr

/-- The state shared by the goroutine of `WatchProperties` and its channel `ch`: the
struct `a.Properties`, the status of the goroutine, whether `ch` has been closed, and the
sends completed on `ch` so far (a receiver is taken to be ready for each). -/
structure Watcher (R : Type) where
  Properties : R
  status : Status
  closed : Bool
  sent : List (Sent R)
  deriving DecidableEq, Repr

/-- The events received from `ch` so far, oldest first. -/
def Watcher.events {R : Type} (w : Watcher R) : List (Option PropertyChanged) :=
  w.sent.map (fun s => s.value)

/-- A send `ch <- v`: a panic when `ch` is closed. -/
def Watcher.send {R : Type} (w : Watcher R) (v : Option PropertyChanged) : Watcher R :=
  if w.closed then { w with status := .faulted }
  else { w with sent := w.sent ++ [⟨v, w.Properties⟩] }

/-- The reflective write in the body of `for field, val := range changes`: the field
found by `FieldByName` is `Set` to the value when it is valid and `CanSet`; otherwise the
struct is left as it is. `none` is the panic of `Set`. -/
def WatchProperties.write {R F : Type} (T : StructType R F) (props : R)
    (e : String × Val) : Option R :=
  match T.FieldByName e.1 with
  | some f =>
    if f.CanSet then
      match f with
      | .exported g => T.Set props g e.2
      | .lock => some props
    else some props
  | none => some props

/-- The body of `for field, val := range changes` in `WatchProperties`: the reflective
write of the field, then the send of the event. Once the goroutine has panicked nothing
more is run. -/
def WatchProperties.entry {R F : Type} (T : StructType R F) (iface : String)
    (w : Watcher R) (e : String × Val) : Watcher R :=
  match w.status with
  | .running =>
    match WatchProperties.write T w.Properties e with
    | none => { w with status := .faulted }
    | some r => Watcher.send { w with Properties := r } (some ⟨iface, e.1, e.2⟩)
  | _ => w

/-- One iteration of the `for` loop of the goroutine of `WatchProperties`, on the value
`sig` received from the input channel (`none` is `nil`). `PropertiesChanged` is the
constant `bluez.PropertiesChanged` and `cfg` the configuration of the client, so that
`cfg.Path` is `a.Path()`. A goroutine that has returned or panicked receives nothing. -/
def WatchProperties.step {R F : Type} (T : StructType R F) (PropertiesChanged : String)
    (cfg : Config) (range : MapRange) (w : Watcher R) (sig : Option Signal) : Watcher R :=
  match w.status with
  | .running =>
    match sig with
    | none => { w with status := .exited }
    | some sig =>
      if sig.Name ≠ PropertiesChanged then w
      else if sig.Path ≠ cfg.Path then w
      else
        match sig.Body.get? 0 with
        | some (.string iface) =>
          match sig.Body.get? 1 with
          | some (.mapStringVariant changes) =>
            (range changes).foldl (WatchProperties.entry T iface) w
          | _ => { w with status := .faulted }
        | _ => { w with status := .faulted }
  | _ => w

/-- The goroutine of `WatchProperties` on the values received from the input channel, in
order; `ranges n` is the order of the `range` statement of the iteration number `n`. -/
def WatchProperties.run {R F : Type} (T : StructType R F) (PropertiesChanged : String)
    (cfg : Config) (ranges : Nat → MapRange) : Watcher R → List (Option Signal) → Watcher R
  | w, [] => w
  | w, sig :: sigs =>
    WatchProperties.run T PropertiesChanged cfg (fun n => ranges (n + 1))
      (WatchProperties.step T PropertiesChanged cfg (ranges 0) w sig) sigs

/-- The state right after `WatchProperties` has returned `ch` (the `Register` of the
client having returned a channel that is not nil, and no error): the goroutine is in its
loop, `ch` is open and nothing has been sent. -/
def WatchProperties.start {R : Type} (props : R) : Watcher R :=
  { Properties := props, status := .running, closed := false, sent := [] }

/-- The method `UnwatchProperties(ch)`: `ch <- nil`, then `close(ch)`. `none` is a panic
of the caller (a send on a closed channel). The goroutine of `WatchProperties` is not
touched: it receives from the input channel, not from `ch`. -/
def UnwatchProperties {R : Type} (w : Watcher R) : Option (Watcher R) :=
  if w.closed then none
  else some { w with sent := w.sent ++ [⟨none, w.Properties⟩], closed := true }

/-- The loop of `Device1.WatchProperties`. -/
def Device1.WatchProperties.step (PropertiesChanged : String) (cfg : Config)
    (range : MapRange) (w : Watcher Device1Properties) (sig : Option Signal) :
    Watcher Device1Properties :=
  Bluez.WatchProperties.step Device1Properties.reflect PropertiesChanged cfg range w sig

/-- The loop of `PhonebookAccess1.WatchProperties`. -/
def PhonebookAccess1.WatchProperties.step (PropertiesChanged : String) (cfg : Config)
    (range : MapRange) (w : Watcher PhonebookAccess1Properties) (sig : Option Signal) :
    Watcher PhonebookAccess1Properties :=
  Bluez.WatchProperties.step PhonebookAccess1Properties.reflect PropertiesChanged cfg range w sig

/-- The facts about `reflect` on a properties struct that the proofs use: a field is
found under its own name only, `Set` succeeds exactly on the values of the type of the
field, and a successful `Set` changes that field and no other. -/
structure StructType.Lawful {R F : Type} (T : StructType R F) : Prop where
  name_of_found : ∀ name f, T.FieldByName name = some (.exported f) → T.fieldName f = name
  found_of_name : ∀ f, T.FieldByName (T.fieldName f) = some (.exported f)
  set_isSome : ∀ r f v, (T.Set r f v).isSome = true ↔ v.typeOf = some (T.fieldType f)
  interface_set : ∀ r f v r1, T.Set r f v = some r1 → T.Interface r1 f = v
  interface_set_ne : ∀ r f v r1 g, T.Set r f v = some r1 → g ≠ f →
    T.Interface r1 g = T.Interface r g

/-! ## Scenario data -/

/-- The member name of the standard properties-changed signal, as a value for the
constant `bluez.PropertiesChanged` in the scenarios. -/
def Scenario.PropertiesChanged : String := "org.freedesktop.DBus.Properties.PropertiesChanged"

/-- The configuration that `NewDevice1` gives the client, for one device path. -/
def Scenario.cfg : Config :=
  { Name := "org.bluez", Iface := Device1Interface, Path := "/org/bluez/hci0/dev_AA_BB_CC_DD_EE_FF" }

/-- The properties struct after the bulk fetch of the first scenario: the five
announced properties, every other field at its zero value. -/
def Scenario.props : Device1Properties :=
  { Appearance := 0, UUIDs := ["0000110b-0000-1000-8000-00805f9b34fb"], Connected := false,
    RSSI := -67, ServicesResolved := false, AdvertisingFlags := [], Alias := "",
    AdvertisingData := [], ManufacturerData := [], ServiceData := [],
    Address := "AA:BB:CC:DD:EE:FF", Icon := "", Class := 0, Trusted := false,
    Blocked := false, TxPower := 0, AddressType := "", Name := "", Paired := true,
    Adapter := "", LegacyPairing := false, Modalias := "" }

/-- A `PropertiesChanged` signal on the path of `Scenario.cfg` with the given interface
name and changed map, and an empty invalidated list. -/
def Scenario.changed (iface : String) (changes : VariantMap) : Signal :=
  { Sender := ":1.7", Path := "/org/bluez/hci0/dev_AA_BB_CC_DD_EE_FF",
    Name := Scenario.PropertiesChanged,
    Body := [.string iface, .mapStringVariant changes, .stringSlice []] }

/-- The configuration that `NewPhonebookAccess1` gives the client, for one session. -/
def Scenario.pbapCfg : Config :=
  { Name := "org.bluez.obex", Iface := PhonebookAccess1Interface,
    Path := "/org/bluez/obex/client/session0" }

/-- A properties struct of the phonebook binding. -/
def Scenario.pbapProps : PhonebookAccess1Properties :=
  { FixedImageSize := false, Folder := "/telecom", DatabaseIdentifier := "",
    PrimaryCounter := "", SecondaryCounter := "" }

/-! ## Properties of watcher states -/

/-- Every event on record was sent when the struct held the value of the event in the
field that the event names. -/
def Watcher.WrittenBeforeSent {R F : Type} (T : StructType R F) (w : Watcher R) : Prop :=
  ∀ s ∈ w.sent, ∀ ev f, s.value = some ev → T.FieldByName ev.Name = some (.exported f) →
    T.Interface s.props f = ev.Value

/-- The name and value of an event, without its interface name. -/
def PropertyChanged.change (ev : PropertyChanged) : String × Val := (ev.Name, ev.Value)

/-- The names and values of the events received from `ch` so far, oldest first. -/
def Watcher.changes {R : Type} (w : Watcher R) : List (Option (String × Val)) :=
  w.events.map (Option.map PropertyChanged.change)

/-- The per-entry events of one received value, in the words of the specification: for a
signal with the properties-changed member name and the path of the binding, one event for
each entry of its changed map, in the order of the entries, with the interface name of
the body; no event for any other value. -/
def Spec.perSignalEvents (PropertiesChanged : String) (cfg : Config) :
    Option Signal → List (Option PropertyChanged)
  | none => []
  | some sig =>
    if sig.Name = PropertiesChanged ∧ sig.Path = cfg.Path then
      match sig.Body.get? 0, sig.Body.get? 1 with
      | some (.string iface), some (.mapStringVariant changes) =>
        changes.map (fun e => some ⟨iface, e.1, e.2⟩)
      | _, _ => []
    else []

/-! ## The binding and its calls to the transport -/

/-- A Go `error`, by its text. -/
abbrev Error := String

/-- A channel of signals made by the transport, by its identity; a channel that the
transport returns without an error is never nil. -/
abbrev Chan := Nat

/-- A `*bluez.ObjectManager`, by its identity. -/
abbrev ObjectManager := Nat

/-- Modelled from the spec: the struct `bluez.Client` is not among the source files. The
object client is a handle that holds the service name, the interface name and the object
path, here its `Config`, which `Path()` and `Interface()` read; its bus connection stays
outside the model. -/
structure Client where
  Config : Config
  deriving DecidableEq, Repr

/-- Modelled from the spec: the function `bluez.NewClient` is not among the source
files; the client it makes holds the configuration it is given. -/
def NewClient (cfg : Config) : Client := { Config := cfg }

/-- What a method of a binding does outside the binding: the calls to the client and to
the object manager, and the sends of nil on a signal channel. -/
inductive Effect where
  | GetProperties
  | SetProperty (name : String) (value : Val)
  | GetProperty (name : String)
  | Register (path : String) (iface : String)
  | Disconnect
  | GetObjectManager
  | ObjectManagerRegister
  | ObjectManagerUnregister (ch : Chan)
  | SendNil (ch : Chan)
  deriving DecidableEq, Repr

/-- The structs `Device1` and `PhonebookAccess1`, which differ in the type of
`Properties` only; a nil channel or pointer is `none`. -/
structure Binding (R : Type) where
  client : Client
  propertiesSignal : Option Chan
  objectManagerSignal : Option Chan
  objectManager : Option ObjectManager
  Properties : R
  deriving DecidableEq, Repr

/-- The struct `Device1`. -/
abbrev Device1 := Binding Device1Properties

/-- The struct `PhonebookAccess1`. -/
abbrev PhonebookAccess1 := Binding PhonebookAccess1Properties

/-- A method call on a binding: the binding after the call, the calls made outside it,
in order, and what the method returns. -/
structure Outcome (R : Type) (α : Type) where
  binding : Binding R
  calls : List Effect
  result : α

/-- The method `Path`. -/
def Binding.Path {R : Type} (a : Binding R) : String := a.client.Config.Path

/-- The method `Interface`. -/
def Binding.Interface {R : Type} (a : Binding R) : String := a.client.Config.Iface

/-- The method `GetProperties`: the client fills `a.Properties`; `fetch` is what
`a.client.GetProperties` does to the struct, with the error it returns. -/
def Binding.GetProperties {R : Type} (a : Binding R) (fetch : R → R × Option Error) :
    Outcome R (R × Option Error) :=
  { binding := { a with Properties := (fetch a.Properties).1 },
    calls := [.GetProperties],
    result := fetch a.Properties }

/-- The value of `new(Device1Properties)`: every field at its zero value (a nil slice or
map is the empty list). -/
def Device1Properties.zero : Device1Properties :=
  { Appearance := 0, UUIDs := [], Connected := false, RSSI := 0, ServicesResolved := false,
    AdvertisingFlags := [], Alias := "", AdvertisingData := [], ManufacturerData := [],
    ServiceData := [], Address := "", Icon := "", Class := 0, Trusted := false,
    Blocked := false, TxPower := 0, AddressType := "", Name := "", Paired := false,
    Adapter := "", LegacyPairing := false, Modalias := "" }

/-- The value of `new(PhonebookAccess1Properties)`. -/
def PhonebookAccess1Properties.zero : PhonebookAccess1Properties :=
  { FixedImageSize := false, Folder := "", DatabaseIdentifier := "", PrimaryCounter := "",
    SecondaryCounter := "" }

/-- The function `NewDevice1`; `fetch` is what the client does on `GetProperties`. -/
def NewDevice1 (objectPath : String)
    (fetch : Device1Properties → Device1Properties × Option Error) : Except Error Device1 :=
  let a : Device1 :=
    { client := NewClient { Name := "org.bluez", Iface := Device1Interface, Path := objectPath },
      propertiesSignal := none, objectManagerSignal := none, objectManager := none,
      Properties := Device1Properties.zero }
  match (a.GetProperties fetch).result.2 with
  | some err => .error err
  | none => .ok (a.GetProperties fetch).binding

/-- The function `NewPhonebookAccess1`; `fetch` is what the client does on
`GetProperties`. -/
def NewPhonebookAccess1 (objectPath : String)
    (fetch : PhonebookAccess1Properties → PhonebookAccess1Properties × Option Error) :
    Except Error PhonebookAccess1 :=
  let a : PhonebookAccess1 :=
    { client := NewClient
        { Name := "org.bluez.obex", Iface := PhonebookAccess1Interface, Path := objectPath },
      propertiesSignal := none, objectManagerSignal := none, objectManager := none,
      Properties := PhonebookAccess1Properties.zero }
  match (a.GetProperties fetch).result.2 with
  | some err => .error err
  | none => .ok (a.GetProperties fetch).binding

/-- The method `SetProperty`: the call of the client and nothing else; `reply` is the
error that `a.client.SetProperty` returns (`none` is nil). -/
def Binding.SetProperty {R : Type} (a : Binding R) (name : String) (value : Val)
    (reply : Option Error) : Outcome R (Option Error) :=
  { binding := a, calls := [.SetProperty name value], result := reply }

/-- The method `GetProperty`: the call of the client and nothing else. -/
def Binding.GetProperty {R : Type} (a : Binding R) (name : String)
    (reply : Except Error Val) : Outcome R (Except Error Val) :=
  { binding := a, calls := [.GetProperty name], result := reply }

/-- The type of the parameter of the shim `Set<Property>` of `Device1`. -/
def Device1Field.setterType : Device1Field → GoType
  | .Appearance => .uint16
  | .UUIDs => .stringSlice
  | .Connected => .bool
  | .RSSI => .int16
  | .ServicesResolved => .bool
  | .AdvertisingFlags => .byteSlice
  | .Alias => .string
  | .AdvertisingData => .mapStringInterface
  | .ManufacturerData => .mapStringInterface
  | .ServiceData => .mapStringInterface
  | .Address => .string
  | .Icon => .string
  | .Class => .uint32
  | .Trusted => .bool
  | .Blocked => .bool
  | .TxPower => .int16
  | .AddressType => .string
  | .Name => .string
  | .Paired => .bool
  | .Adapter => .objectPath
  | .LegacyPairing => .bool
  | .Modalias => .string

/-- The type that the shim `Get<Property>` of `Device1` returns, and asserts of the
value of the variant. -/
def Device1Field.getterType : Device1Field → GoType
  | .Appearance => .uint16
  | .UUIDs => .stringSlice
  | .Connected => .bool
  | .RSSI => .int16
  | .ServicesResolved => .bool
  | .AdvertisingFlags => .byteSlice
  | .Alias => .string
  | .AdvertisingData => .mapStringInterface
  | .ManufacturerData => .mapStringInterface
  | .ServiceData => .mapStringInterface
  | .Address => .string
  | .Icon => .string
  | .Class => .uint32
  | .Trusted => .bool
  | .Blocked => .bool
  | .TxPower => .int16
  | .AddressType => .string
  | .Name => .string
  | .Paired => .bool
  | .Adapter => .objectPath
  | .LegacyPairing => .bool
  | .Modalias => .string

/-- The type of the parameter of the shim `Set<Property>` of `PhonebookAccess1`. -/
def PhonebookAccess1Field.setterType : PhonebookAccess1Field → GoType
  | .FixedImageSize => .bool
  | .Folder => .string
  | .DatabaseIdentifier => .string
  | .PrimaryCounter => .string
  | .SecondaryCounter => .string

/-- The type that the shim `Get<Property>` of `PhonebookAccess1` returns, and asserts of
the value of the variant. -/
def PhonebookAccess1Field.getterType : PhonebookAccess1Field → GoType
  | .FixedImageSize => .bool
  | .Folder => .string
  | .DatabaseIdentifier => .string
  | .PrimaryCounter => .string
  | .SecondaryCounter => .string

/-- The shim `Set<Property>` of `Device1` for the field `f`: `SetProperty` under the name
of the field. Go admits for `v` the values of the type `f.setterType` only; the model
takes any. -/
def Device1.Set (a : Device1) (f : Device1Field) (v : Val) (reply : Option Error) :
    Outcome Device1Properties (Option Error) :=
  a.SetProperty f.fieldName v reply

/-- The shim `Set<Property>` of `PhonebookAccess1` for the field `f`. -/
def PhonebookAccess1.Set (a : PhonebookAccess1) (f : PhonebookAccess1Field) (v : Val)
    (reply : Option Error) : Outcome PhonebookAccess1Properties (Option Error) :=
  a.SetProperty f.fieldName v reply

/-- A type assertion `x.(T)` to a type of `GoType`: the value when its dynamic type is
`T`, a panic (`none`) otherwise, nil included. -/
def Val.assert (x : Val) (t : GoType) : Option Val :=
  if x.typeOf = some t then some x else none

/-- The shim `Get<Property>` of `Device1` for the field `f`: `GetProperty` under the name
of the field, the error returned as it is, the value of the variant asserted to be of the
type `f.getterType`. `none` is the panic of the assertion. -/
def Device1.Get (a : Device1) (f : Device1Field) (reply : Except Error Val) :
    Option (Outcome Device1Properties (Except Error Val)) :=
  match (a.GetProperty f.fieldName reply).result with
  | .error err => some { a.GetProperty f.fieldName reply with result := .error err }
  | .ok v => (v.assert f.getterType).map
      (fun x => { a.GetProperty f.fieldName reply with result := .ok x })

/-- The shim `Get<Property>` of `PhonebookAccess1` for the field `f`. -/
def PhonebookAccess1.Get (a : PhonebookAccess1) (f : PhonebookAccess1Field)
    (reply : Except Error Val) :
    Option (Outcome PhonebookAccess1Properties (Except Error Val)) :=
  match (a.GetProperty f.fieldName reply).result with
  | .error err => some { a.GetProperty f.fieldName reply with result := .error err }
  | .ok v => (v.assert f.getterType).map
      (fun x => { a.GetProperty f.fieldName reply with result := .ok x })

/-- The method `GetPropertiesSignal`: the channel held, or else the channel that
`a.client.Register` returns, which is then held. `PropertiesInterface` is the constant
`bluez.PropertiesInterface`; `reply` is what `Register` returns when it is called. -/
def Binding.GetPropertiesSignal {R : Type} (PropertiesInterface : String) (a : Binding R)
    (reply : Except Error Chan) : Outcome R (Except Error Chan) :=
  match a.propertiesSignal with
  | some s => { binding := a, calls := [], result := .ok s }
  | none =>
    match reply with
    | .error err =>
      { binding := a, calls := [.Register a.client.Config.Path PropertiesInterface],
        result := .error err }
    | .ok s =>
      { binding := { a with propertiesSignal := some s },
        calls := [.Register a.client.Config.Path PropertiesInterface], result := .ok s }

/-- The method `unregisterPropertiesSignal`. -/
def Binding.unregisterPropertiesSignal {R : Type} (a : Binding R) : Binding R × List Effect :=
  match a.propertiesSignal with
  | some s => ({ a with propertiesSignal := none }, [.SendNil s])
  | none => (a, [])

/-- The method `Close`. -/
def Binding.Close {R : Type} (a : Binding R) : Binding R × List Effect :=
  (a.unregisterPropertiesSignal.1, a.unregisterPropertiesSignal.2 ++ [.Disconnect])

/-- The method `WatchProperties` up to the start of its goroutine: one `Register` of the
client on the path and the interface of the binding, whose `reply` decides between the
error and a new watcher on the struct of the binding. -/
def Binding.WatchProperties {R : Type} (a : Binding R) (reply : Except Error Chan) :
    Outcome R (Except Error (Watcher R)) :=
  { binding := a, calls := [.Register a.Path a.Interface],
    result := reply.map (fun _ => WatchProperties.start a.Properties) }

/-- The closure `cancel` that `GetObjectManagerSignal` returns. It reads the binding when
it is called. -/
def Binding.cancel {R : Type} (a : Binding R) : Binding R × List Effect :=
  match a.objectManagerSignal with
  | none => (a, [])
  | some s => ({ a with objectManagerSignal := none }, [.SendNil s, .ObjectManagerUnregister s])

/-- The method `GetObjectManagerSignal`, without the closure in its result (see
`Binding.cancel`). `manager` is what `bluez.GetObjectManager` returns and `reply` what
`a.objectManager.Register` returns, when they are called. -/
def Binding.GetObjectManagerSignal {R : Type} (a : Binding R)
    (manager : Except Error ObjectManager) (reply : Except Error Chan) :
    Outcome R (Except Error Chan) :=
  match a.objectManagerSignal with
  | some s => { binding := a, calls := [], result := .ok s }
  | none =>
    match a.objectManager with
    | some _ =>
      match reply with
      | .error err => { binding := a, calls := [.ObjectManagerRegister], result := .error err }
      | .ok s =>
        { binding := { a with objectManagerSignal := some s },
          calls := [.ObjectManagerRegister], result := .ok s }
    | none =>
      match manager with
      | .error err => { binding := a, calls := [.GetObjectManager], result := .error err }
      | .ok om =>
        match reply with
        | .error err =>
          { binding := { a with objectManager := some om },
            calls := [.GetObjectManager, .ObjectManagerRegister], result := .error err }
        | .ok s =>
          { binding := { a with objectManager := some om, objectManagerSignal := some s },
            calls := [.GetObjectManager, .ObjectManagerRegister], result := .ok s }

/-- A sequence of calls of `GetObjectManagerSignal`, each with its two replies: the
binding at the end and the outcome of every call, in order. -/
def Binding.GetObjectManagerSignal.calls {R : Type} :
    Binding R → List (Except Error ObjectManager × Except Error Chan) →
      Binding R × List (List Effect × Except Error Chan)
  | a, [] => (a, [])
  | a, r :: rs =>
    ((Binding.GetObjectManagerSignal.calls (a.GetObjectManagerSignal r.1 r.2).binding rs).1,
      ((a.GetObjectManagerSignal r.1 r.2).calls, (a.GetObjectManagerSignal r.1 r.2).result) ::
        (Binding.GetObjectManagerSignal.calls (a.GetObjectManagerSignal r.1 r.2).binding rs).2)

/-- A call of one of the two methods that subscribe to property changes, with what
`Register` returns when the method calls it. -/
inductive Subscribe where
  | GetPropertiesSignal (reply : Except Error Chan)
  | WatchProperties (reply : Except Error Chan)

/-- Whether the call is one of `WatchProperties`. -/
def Subscribe.isWatch : Subscribe → Bool
  | .GetPropertiesSignal _ => false
  | .WatchProperties _ => true

/-- A sequence of calls of `GetPropertiesSignal` and `WatchProperties`: the binding at the
end and the calls made outside it, in order. -/
def Binding.subscribeAll {R : Type} (PropertiesInterface : String) :
    Binding R → List Subscribe → Binding R × List Effect
  | a, [] => (a, [])
  | a, .GetPropertiesSignal reply :: ops =>
    ((Binding.subscribeAll PropertiesInterface
        (a.GetPropertiesSignal PropertiesInterface reply).binding ops).1,
      (a.GetPropertiesSignal PropertiesInterface reply).calls ++
        (Binding.subscribeAll PropertiesInterface
          (a.GetPropertiesSignal PropertiesInterface reply).binding ops).2)
  | a, .WatchProperties reply :: ops =>
    ((Binding.subscribeAll PropertiesInterface (a.WatchProperties reply).binding ops).1,
      (a.WatchProperties reply).calls ++
        (Binding.subscribeAll PropertiesInterface (a.WatchProperties reply).binding ops).2)

/-! ## Conversion between a properties struct and a map -/

/-- Modelled from the spec: the decoding of one entry by `util.MapToStruct` (see
`MapToStruct`), on the struct decoded so far and the error so far. -/
def MapToStruct.entry {R F : Type} (T : StructType R F) (acc : R × Option Error)
    (e : String × Val) : R × Option Error :=
  match acc.2 with
  | some _ => acc
  | none =>
    match T.FieldByName e.1 with
    | some (.exported f) =>
      match T.Set acc.1 f e.2 with
      | some r => (r, none)
      | none => (acc.1, some e.1)
    | _ => acc

/-- Modelled from the spec: the function `util.MapToStruct` is not among the source
files. It decodes a bag of variants keyed by property name into the struct: an entry
whose key is a declared property sets the field of that name, an unknown key is ignored,
and a value whose type does not match the type of the field fails with a decoding error
that names the property; nothing is decoded after a failure. `range` is the order in
which the entries are visited. -/
def MapToStruct {R F : Type} (T : StructType R F) (range : MapRange) (s : R)
    (props : VariantMap) : R × Option Error :=
  (range props).foldl (MapToStruct.entry T) (s, none)

/-- The method `FromDBusMap` of `Device1Properties`: `util.MapToStruct` on a new
struct. -/
def Device1Properties.FromDBusMap (range : MapRange) (props : VariantMap) :
    Device1Properties × Option Error :=
  MapToStruct Device1Properties.reflect range Device1Properties.zero props

/-- The method `FromDBusMap` of `PhonebookAccess1Properties`. -/
def PhonebookAccess1Properties.FromDBusMap (range : MapRange) (props : VariantMap) :
    PhonebookAccess1Properties × Option Error :=
  MapToStruct PhonebookAccess1Properties.reflect range PhonebookAccess1Properties.zero props

/-- Modelled from the spec: the method `ToMap` of `Device1Properties` is
`structs.Map`, of a library that is not among the source files; it produces a snapshot
of field name to value, one entry for each exported field. It returns no error. -/
def Device1Properties.ToMap (p : Device1Properties) : VariantMap :=
  Device1Field.all.map (fun f => (f.fieldName, p.Interface f))

/-- Modelled from the spec: the method `ToMap` of `PhonebookAccess1Properties`, a
snapshot of field name to value, one entry for each exported field. -/
def PhonebookAccess1Properties.ToMap (p : PhonebookAccess1Properties) : VariantMap :=
  PhonebookAccess1Field.all.map (fun f => (f.fieldName, p.Interface f))

/-- The binding of the scenarios, right after `NewDevice1`. -/
def Scenario.device : Device1 :=
  { client := NewClient Scenario.cfg, propertiesSignal := none, objectManagerSignal := none,
    objectManager := none, Properties := Scenario.props }

/-! ## Theorems -/

theorem device1Properties_lawful : Device1Properties.reflect.Lawful where
  name_of_found := by
    intro name f h
    simp only [Device1Properties.reflect, Device1Properties.FieldByName] at h ⊢
    split at h
    · simp at h
    · simp only [Option.map_eq_some', StructField.exported.injEq, exists_eq_right] at h
      have := List.find?_some h
      simpa using this
  found_of_name := by
    intro f
    cases f <;> decide
  set_isSome := by
    intro r f v
    cases f <;> cases v <;>
      simp [Device1Properties.reflect, Device1Properties.Set, Val.typeOf, Device1Field.fieldType]
  interface_set := by
    intro r f v r1 h
    cases f <;> cases v <;>
      simp [Device1Properties.reflect, Device1Properties.Set] at h <;>
      subst h <;> rfl
  interface_set_ne := by
    intro r f v r1 g h hne
    cases f <;> cases v <;>
      simp [Device1Properties.reflect, Device1Properties.Set] at h <;>
      subst h <;> cases g <;> first | rfl | exact absurd rfl hne

theorem phonebookAccess1Properties_lawful :
    PhonebookAccess1Properties.reflect.Lawful where
  name_of_found := by
    intro name f h
    simp only [PhonebookAccess1Properties.reflect, PhonebookAccess1Properties.FieldByName]
      at h ⊢
    split at h
    · simp at h
    · simp only [Option.map_eq_some', StructField.exported.injEq, exists_eq_right] at h
      have := List.find?_some h
      simpa using this
  found_of_name := by
    intro f
    cases f <;> decide
  set_isSome := by
    intro r f v
    cases f <;> cases v <;>
      simp [PhonebookAccess1Properties.reflect, PhonebookAccess1Properties.Set, Val.typeOf,
        PhonebookAccess1Field.fieldType]
  interface_set := by
    intro r f v r1 h
    cases f <;> cases v <;>
      simp [PhonebookAccess1Properties.reflect, PhonebookAccess1Properties.Set] at h <;>
      subst h <;> rfl
  interface_set_ne := by
    intro r f v r1 g h hne
    cases f <;> cases v <;>
      simp [PhonebookAccess1Properties.reflect, PhonebookAccess1Properties.Set] at h <;>
      subst h <;> cases g <;> first | rfl | exact absurd rfl hne

/-! ### The loop body, case by case -/

theorem WatchProperties.entry_of_not_running {R F : Type} (T : StructType R F)
    (iface : String) (w : Watcher R) (e : String × Val) (h : w.status ≠ .running) :
    WatchProperties.entry T iface w e = w := by
  unfold WatchProperties.entry
  split
  · next hs => exact absurd hs h
  · rfl

theorem WatchProperties.write_skip {R F : Type} (T : StructType R F) (props : R)
    (e : String × Val) (hno : ∀ f, T.FieldByName e.1 ≠ some (.exported f)) :
    WatchProperties.write T props e = some props := by
  unfold WatchProperties.write
  cases hf : T.FieldByName e.1 with
  | none => rfl
  | some sf =>
    cases sf with
    | lock => rfl
    | exported f => exact absurd hf (hno f)

theorem WatchProperties.write_exported {R F : Type} (T : StructType R F) (props : R)
    (e : String × Val) (f : F) (hf : T.FieldByName e.1 = some (.exported f)) :
    WatchProperties.write T props e = T.Set props f e.2 := by
  unfold WatchProperties.write
  rw [hf]
  rfl

theorem WatchProperties.entry_closed {R F : Type} (T : StructType R F) (iface : String)
    (w : Watcher R) (e : String × Val) :
    (WatchProperties.entry T iface w e).closed = w.closed := by
  unfold WatchProperties.entry Watcher.send
  cases w.status <;> simp only
  cases WatchProperties.write T w.Properties e with
  | none => rfl
  | some r =>
    simp only
    split <;> rfl

theorem WatchProperties.entry_of_write {R F : Type} (T : StructType R F) (iface : String)
    (w : Watcher R) (e : String × Val) (r1 : R) (hrun : w.status = .running)
    (hopen : w.closed = false) (hw : WatchProperties.write T w.Properties e = some r1) :
    WatchProperties.entry T iface w e =
      { w with Properties := r1, sent := w.sent ++ [⟨some ⟨iface, e.1, e.2⟩, r1⟩] } := by
  unfold WatchProperties.entry Watcher.send
  rw [hrun]
  simp [hw, hopen]

theorem WatchProperties.entry_skip {R F : Type} (T : StructType R F) (iface : String)
    (w : Watcher R) (e : String × Val) (hrun : w.status = .running)
    (hopen : w.closed = false) (hno : ∀ f, T.FieldByName e.1 ≠ some (.exported f)) :
    WatchProperties.entry T iface w e =
      { w with sent := w.sent ++ [⟨some ⟨iface, e.1, e.2⟩, w.Properties⟩] } := by
  rw [WatchProperties.entry_of_write T iface w e w.Properties hrun hopen
    (WatchProperties.write_skip T _ e hno)]

theorem WatchProperties.entry_set {R F : Type} (T : StructType R F) (iface : String)
    (w : Watcher R) (e : String × Val) (f : F) (r1 : R) (hrun : w.status = .running)
    (hopen : w.closed = false) (hf : T.FieldByName e.1 = some (.exported f))
    (hset : T.Set w.Properties f e.2 = some r1) :
    WatchProperties.entry T iface w e =
      { w with Properties := r1, sent := w.sent ++ [⟨some ⟨iface, e.1, e.2⟩, r1⟩] } :=
  WatchProperties.entry_of_write T iface w e r1 hrun hopen
    ((WatchProperties.write_exported T _ e f hf).trans hset)

theorem WatchProperties.entry_fault {R F : Type} (T : StructType R F) (iface : String)
    (w : Watcher R) (e : String × Val) (f : F) (hrun : w.status = .running)
    (hf : T.FieldByName e.1 = some (.exported f))
    (hset : T.Set w.Properties f e.2 = none) :
    WatchProperties.entry T iface w e = { w with status := .faulted } := by
  unfold WatchProperties.entry
  rw [hrun]
  simp [WatchProperties.write_exported T _ e f hf, hset]

theorem WatchProperties.foldl_entry_of_not_running {R F : Type} (T : StructType R F)
    (iface : String) (l : VariantMap) (w : Watcher R) (h : w.status ≠ .running) :
    l.foldl (WatchProperties.entry T iface) w = w := by
  induction l with
  | nil => rfl
  | cons e l ih => rw [List.foldl_cons, WatchProperties.entry_of_not_running T iface w e h, ih]

theorem WatchProperties.foldl_entry_closed {R F : Type} (T : StructType R F)
    (iface : String) (l : VariantMap) (w : Watcher R) :
    (l.foldl (WatchProperties.entry T iface) w).closed = w.closed := by
  induction l generalizing w with
  | nil => rfl
  | cons e l ih => rw [List.foldl_cons, ih, WatchProperties.entry_closed]

/-- The step on a signal that passes both filters and whose body decodes is the `for`
loop over the entries in the order of the `range`. -/
theorem WatchProperties.step_matching {R F : Type} (T : StructType R F)
    (PropertiesChanged : String) (cfg : Config) (range : MapRange) (w : Watcher R)
    (sig : Signal) (iface : String) (changes : VariantMap) (hrun : w.status = .running)
    (hname : sig.Name = PropertiesChanged) (hpath : sig.Path = cfg.Path)
    (h0 : sig.Body.get? 0 = some (.string iface))
    (h1 : sig.Body.get? 1 = some (.mapStringVariant changes)) :
    WatchProperties.step T PropertiesChanged cfg range w (some sig) =
      (range changes).foldl (WatchProperties.entry T iface) w := by
  unfold WatchProperties.step
  rw [hrun]
  simp only [hname, hpath, h0, h1, ne_eq, not_true_eq_false, if_false]

/-- The `for` loop over entries that all name an exported field and carry a value of its
type, with pairwise different names: the loop is still running, every named field holds
the value of its entry, every other field is untouched. -/
theorem WatchProperties.foldl_entry_applies {R F : Type} (T : StructType R F)
    (hT : T.Lawful) (iface : String) (l : VariantMap) (w : Watcher R)
    (hrun : w.status = .running) (hopen : w.closed = false)
    (hnodup : (l.map Prod.fst).Nodup)
    (htyped : ∀ e ∈ l, ∃ f, T.FieldByName e.1 = some (.exported f) ∧
      e.2.typeOf = some (T.fieldType f)) :
    (l.foldl (WatchProperties.entry T iface) w).status = .running ∧
    (∀ e ∈ l, ∀ f, T.FieldByName e.1 = some (.exported f) →
      T.Interface (l.foldl (WatchProperties.entry T iface) w).Properties f = e.2) ∧
    (∀ f, T.fieldName f ∉ l.map Prod.fst →
      T.Interface (l.foldl (WatchProperties.entry T iface) w).Properties f =
        T.Interface w.Properties f) := by
  induction l generalizing w with
  | nil => exact ⟨hrun, by simp, by simp⟩
  | cons e l ih =>
    obtain ⟨f, hf, hty⟩ := htyped e (List.mem_cons_self _ _)
    have hsome : (T.Set w.Properties f e.2).isSome = true := (hT.set_isSome _ _ _).2 hty
    obtain ⟨r1, hr1⟩ := Option.isSome_iff_exists.1 hsome
    have hstep := WatchProperties.entry_set T iface w e f r1 hrun hopen hf hr1
    rw [List.map_cons, List.nodup_cons] at hnodup
    rw [List.foldl_cons, hstep]
    obtain ⟨ih1, ih2, ih3⟩ := ih
      { w with Properties := r1, sent := w.sent ++ [⟨some ⟨iface, e.1, e.2⟩, r1⟩] }
      hrun hopen hnodup.2 (fun e1 he1 => htyped e1 (List.mem_cons_of_mem _ he1))
    refine ⟨ih1, ?_, ?_⟩
    · intro e1 he1 g hg
      rcases List.mem_cons.1 he1 with rfl | hmem
      · have hfg : g = f := by
          rw [hf] at hg
          injection hg with hg
          injection hg with hg
          exact hg.symm
        subst hfg
        rw [ih3 g (by rw [hT.name_of_found _ _ hf]; exact hnodup.1)]
        exact hT.interface_set _ _ _ _ hr1
      · exact ih2 e1 hmem g hg
    · intro g hg
      rw [List.map_cons, List.mem_cons, not_or] at hg
      rw [ih3 g hg.2]
      refine hT.interface_set_ne _ _ _ _ g hr1 ?_
      intro hgf
      subst hgf
      exact hg.1 (hT.name_of_found _ _ hf)

/-- The step on a matching signal whose entries all name an exported field and carry a
value of its type. -/
theorem WatchProperties.step_applies {R F : Type} (T : StructType R F) (hT : T.Lawful)
    (PropertiesChanged : String) (cfg : Config) (range : MapRange) (w : Watcher R)
    (sig : Signal) (iface : String) (changes : VariantMap) (hrange : range.Valid)
    (hrun : w.status = .running) (hopen : w.closed = false)
    (hname : sig.Name = PropertiesChanged) (hpath : sig.Path = cfg.Path)
    (h0 : sig.Body.get? 0 = some (.string iface))
    (h1 : sig.Body.get? 1 = some (.mapStringVariant changes))
    (hnodup : (changes.map Prod.fst).Nodup)
    (htyped : ∀ e ∈ changes, ∃ f, T.FieldByName e.1 = some (.exported f) ∧
      e.2.typeOf = some (T.fieldType f)) :
    (WatchProperties.step T PropertiesChanged cfg range w (some sig)).status = .running ∧
    (∀ e ∈ changes, ∀ f, T.FieldByName e.1 = some (.exported f) →
      T.Interface (WatchProperties.step T PropertiesChanged cfg range w
        (some sig)).Properties f = e.2) ∧
    (∀ f, T.fieldName f ∉ changes.map Prod.fst →
      T.Interface (WatchProperties.step T PropertiesChanged cfg range w
        (some sig)).Properties f = T.Interface w.Properties f) := by
  rw [WatchProperties.step_matching T PropertiesChanged cfg range w sig iface changes hrun
    hname hpath h0 h1]
  have hperm := hrange changes
  obtain ⟨a, b, c⟩ := WatchProperties.foldl_entry_applies T hT iface (range changes) w hrun
    hopen ((hperm.map Prod.fst).nodup_iff.2 hnodup)
    (fun e he => htyped e (hperm.mem_iff.1 he))
  refine ⟨a, fun e he => b e (hperm.mem_iff.2 he), fun f hf => c f ?_⟩
  intro hmem
  exact hf ((hperm.map Prod.fst).mem_iff.1 hmem)

/-- C1: one step of the loop of `WatchProperties`, of `Device1` and of
`PhonebookAccess1`, on a `PropertiesChanged` signal of the path of the binding whose
changed map holds only names of exported fields, each with a value of the declared type of
its field (the keys of the map being pairwise different and the `range` visiting each
entry once): the loop is still running, each named field holds the announced value and
every field that is not named holds the value it had. -/
theorem watchProperties_step_applies_changes :
    (∀ (PropertiesChanged : String) (cfg : Config) (range : MapRange)
        (w : Watcher Device1Properties) (sig : Signal) (iface : String)
        (changes : VariantMap),
        range.Valid → w.status = .running → w.closed = false →
        sig.Name = PropertiesChanged → sig.Path = cfg.Path →
        sig.Body.get? 0 = some (.string iface) →
        sig.Body.get? 1 = some (.mapStringVariant changes) →
        (changes.map Prod.fst).Nodup →
        (∀ e ∈ changes, ∃ f, Device1Properties.FieldByName e.1 = some (.exported f) ∧
          e.2.typeOf = some f.fieldType) →
        (Device1.WatchProperties.step PropertiesChanged cfg range w (some sig)).status
          = .running ∧
        (∀ e ∈ changes, ∀ f, Device1Properties.FieldByName e.1 = some (.exported f) →
          (Device1.WatchProperties.step PropertiesChanged cfg range w
            (some sig)).Properties.Interface f = e.2) ∧
        (∀ f : Device1Field, f.fieldName ∉ changes.map Prod.fst →
          (Device1.WatchProperties.step PropertiesChanged cfg range w
            (some sig)).Properties.Interface f = w.Properties.Interface f)) ∧
    (∀ (PropertiesChanged : String) (cfg : Config) (range : MapRange)
        (w : Watcher PhonebookAccess1Properties) (sig : Signal) (iface : String)
        (changes : VariantMap),
        range.Valid → w.status = .running → w.closed = false →
        sig.Name = PropertiesChanged → sig.Path = cfg.Path →
        sig.Body.get? 0 = some (.string iface) →
        sig.Body.get? 1 = some (.mapStringVariant changes) →
        (changes.map Prod.fst).Nodup →
        (∀ e ∈ changes, ∃ f, PhonebookAccess1Properties.FieldByName e.1 = some (.exported f) ∧
          e.2.typeOf = some f.fieldType) →
        (PhonebookAccess1.WatchProperties.step PropertiesChanged cfg range w
          (some sig)).status = .running ∧
        (∀ e ∈ changes, ∀ f,
          PhonebookAccess1Properties.FieldByName e.1 = some (.exported f) →
          (PhonebookAccess1.WatchProperties.step PropertiesChanged cfg range w
            (some sig)).Properties.Interface f = e.2) ∧
        (∀ f : PhonebookAccess1Field, f.fieldName ∉ changes.map Prod.fst →
          (PhonebookAccess1.WatchProperties.step PropertiesChanged cfg range w
            (some sig)).Properties.Interface f = w.Properties.Interface f)) :=
  ⟨fun PC cfg range w sig iface changes hrange hrun hopen hname hpath h0 h1 hnodup htyped =>
      WatchProperties.step_applies Device1Properties.reflect device1Properties_lawful
        PC cfg range w sig iface changes hrange hrun hopen hname hpath h0 h1 hnodup htyped,
    fun PC cfg range w sig iface changes hrange hrun hopen hname hpath h0 h1 hnodup htyped =>
      WatchProperties.step_applies PhonebookAccess1Properties.reflect
        phonebookAccess1Properties_lawful
        PC cfg range w sig iface changes hrange hrun hopen hname hpath h0 h1 hnodup htyped⟩

/-- The second scenario: from the state of the first scenario, the signal with
`Connected = true` and `RSSI = -55`, visited in either order, leaves `Connected` true,
`RSSI` at -55 and the address as it was. -/
theorem watchProperties_step_applies_changes_witness :
    MapRange.Valid List.reverse ∧
    (Device1.WatchProperties.step Scenario.PropertiesChanged Scenario.cfg List.reverse
      (WatchProperties.start Scenario.props)
      (some (Scenario.changed "org.bluez.Device1"
        [("Connected", .bool true), ("RSSI", .int16 (-55))]))).status = .running ∧
    (Device1.WatchProperties.step Scenario.PropertiesChanged Scenario.cfg List.reverse
      (WatchProperties.start Scenario.props)
      (some (Scenario.changed "org.bluez.Device1"
        [("Connected", .bool true), ("RSSI", .int16 (-55))]))).Properties.Interface
        .Connected = .bool true ∧
    (Device1.WatchProperties.step Scenario.PropertiesChanged Scenario.cfg List.reverse
      (WatchProperties.start Scenario.props)
      (some (Scenario.changed "org.bluez.Device1"
        [("Connected", .bool true), ("RSSI", .int16 (-55))]))).Properties.Interface
        .RSSI = .int16 (-55) ∧
    (Device1.WatchProperties.step Scenario.PropertiesChanged Scenario.cfg List.reverse
      (WatchProperties.start Scenario.props)
      (some (Scenario.changed "org.bluez.Device1"
        [("Connected", .bool true), ("RSSI", .int16 (-55))]))).Properties.Interface
        .Address = .string "AA:BB:CC:DD:EE:FF" := by
  have hvalid : MapRange.Valid List.reverse := fun m => List.reverse_perm m
  have h := watchProperties_step_applies_changes.1 Scenario.PropertiesChanged Scenario.cfg
    List.reverse (WatchProperties.start Scenario.props)
    (Scenario.changed "org.bluez.Device1" [("Connected", .bool true), ("RSSI", .int16 (-55))])
    "org.bluez.Device1" [("Connected", .bool true), ("RSSI", .int16 (-55))]
    hvalid rfl rfl rfl rfl rfl rfl (by decide)
    (by
      intro e he
      rcases List.mem_cons.1 he with rfl | he
      · exact ⟨.Connected, by decide, rfl⟩
      rcases List.mem_cons.1 he with rfl | he
      · exact ⟨.RSSI, by decide, rfl⟩
      · exact absurd he (List.not_mem_nil _))
  exact ⟨hvalid, h.1, h.2.1 ("Connected", .bool true) (by decide) .Connected (by decide),
    h.2.1 ("RSSI", .int16 (-55)) (by decide) .RSSI (by decide),
    h.2.2 .Address (by decide)⟩

/-- C2: when the loop of `Device1.WatchProperties`, running with `ch` open, reaches
in a matching signal an entry whose name is not that of an exported field (an unknown
name, or the unexported `lock`), the entry leaves the properties struct as it is, the
goroutine keeps running and sends the event of the entry, and the step goes on through
the remaining entries of the signal from that state. -/
theorem watchProperties_unknown_field_dropped (PropertiesChanged : String) (cfg : Config)
    (range : MapRange) (w : Watcher Device1Properties) (sig : Signal) (iface : String)
    (changes pre post : VariantMap) (name : String) (v : Val)
    (hrun : w.status = .running) (hopen : w.closed = false)
    (hname : sig.Name = PropertiesChanged) (hpath : sig.Path = cfg.Path)
    (h0 : sig.Body.get? 0 = some (.string iface))
    (h1 : sig.Body.get? 1 = some (.mapStringVariant changes))
    (horder : range changes = pre ++ (name, v) :: post)
    (hreach : (pre.foldl (WatchProperties.entry Device1Properties.reflect iface) w).status
      = .running)
    (hunknown : ∀ f, Device1Properties.FieldByName name ≠ some (.exported f)) :
    (WatchProperties.entry Device1Properties.reflect iface
        (pre.foldl (WatchProperties.entry Device1Properties.reflect iface) w)
        (name, v)).Properties
      = (pre.foldl (WatchProperties.entry Device1Properties.reflect iface) w).Properties ∧
    (WatchProperties.entry Device1Properties.reflect iface
        (pre.foldl (WatchProperties.entry Device1Properties.reflect iface) w)
        (name, v)).status = .running ∧
    (WatchProperties.entry Device1Properties.reflect iface
        (pre.foldl (WatchProperties.entry Device1Properties.reflect iface) w)
        (name, v)).events
      = (pre.foldl (WatchProperties.entry Device1Properties.reflect iface) w).events
        ++ [some ⟨iface, name, v⟩] ∧
    Device1.WatchProperties.step PropertiesChanged cfg range w (some sig)
      = post.foldl (WatchProperties.entry Device1Properties.reflect iface)
          (WatchProperties.entry Device1Properties.reflect iface
            (pre.foldl (WatchProperties.entry Device1Properties.reflect iface) w)
            (name, v)) := by
  have hclosed := (WatchProperties.foldl_entry_closed Device1Properties.reflect iface pre
    w).trans hopen
  have hskip := WatchProperties.entry_skip Device1Properties.reflect iface
    (pre.foldl (WatchProperties.entry Device1Properties.reflect iface) w) (name, v)
    hreach hclosed hunknown
  refine ⟨by rw [hskip], by rw [hskip]; exact hreach, ?_, ?_⟩
  · rw [hskip]
    simp [Watcher.events]
  · unfold Device1.WatchProperties.step
    rw [WatchProperties.step_matching Device1Properties.reflect PropertiesChanged cfg range
      w sig iface changes hrun hname hpath h0 h1, horder, List.foldl_append,
      List.foldl_cons]

/-- The third scenario: the signal with `Connected = true` and `FutureField = "x"`, the
unknown entry being visited first, sets `Connected`, sends both events and leaves the
goroutine running. -/
theorem watchProperties_unknown_field_dropped_witness :
    (Device1.WatchProperties.step Scenario.PropertiesChanged Scenario.cfg List.reverse
      (WatchProperties.start Scenario.props)
      (some (Scenario.changed "org.bluez.Device1"
        [("Connected", .bool true), ("FutureField", .string "x")])))
      = { Properties := { Scenario.props with Connected := true },
          status := .running, closed := false,
          sent := [⟨some ⟨"org.bluez.Device1", "FutureField", .string "x"⟩, Scenario.props⟩,
            ⟨some ⟨"org.bluez.Device1", "Connected", .bool true⟩,
              { Scenario.props with Connected := true }⟩] } :=
  (watchProperties_unknown_field_dropped Scenario.PropertiesChanged Scenario.cfg
    List.reverse (WatchProperties.start Scenario.props)
    (Scenario.changed "org.bluez.Device1"
      [("Connected", .bool true), ("FutureField", .string "x")])
    "org.bluez.Device1" [("Connected", .bool true), ("FutureField", .string "x")]
    [] [("Connected", .bool true)] "FutureField" (.string "x")
    rfl rfl rfl rfl rfl rfl rfl rfl
    (fun f h => absurd ((show Device1Properties.FieldByName "FutureField" = none by
      decide).symm.trans h) (by simp))).2.2.2.trans (by decide)

/-- C3, at the failing input: a signal that gives `Connected` a string makes `Set`
panic in the goroutine of `Device1.WatchProperties`. The update is not dropped: the
goroutine is down, with no event sent. -/
theorem watchProperties_type_mismatch_faults :
    (Device1.WatchProperties.step Scenario.PropertiesChanged Scenario.cfg id
      (WatchProperties.start Scenario.props)
      (some (Scenario.changed "org.bluez.Device1" [("Connected", .string "yes")])))
      = { Properties := Scenario.props, status := .faulted, closed := false, sent := [] } := by
  decide

/-! ### What the loop sends -/

theorem WatchProperties.entry_running {R F : Type} (T : StructType R F) (iface : String)
    (w : Watcher R) (e : String × Val)
    (h : (WatchProperties.entry T iface w e).status = .running) :
    ∃ r1, WatchProperties.write T w.Properties e = some r1 ∧ w.status = .running ∧
      w.closed = false ∧
      WatchProperties.entry T iface w e =
        { w with Properties := r1, sent := w.sent ++ [⟨some ⟨iface, e.1, e.2⟩, r1⟩] } := by
  by_cases hrun : w.status = .running
  · cases hw : WatchProperties.write T w.Properties e with
    | none =>
      unfold WatchProperties.entry at h
      rw [hrun] at h
      simp [hw] at h
    | some r1 =>
      rcases Bool.eq_false_or_eq_true w.closed with hc | hc
      · unfold WatchProperties.entry Watcher.send at h
        rw [hrun] at h
        simp [hw, hc] at h
      · exact ⟨r1, rfl, hrun, hc, WatchProperties.entry_of_write T iface w e r1 hrun hc hw⟩
  · rw [WatchProperties.entry_of_not_running T iface w e hrun] at h
    exact absurd h hrun

theorem WatchProperties.entry_sent {R F : Type} (T : StructType R F) (iface : String)
    (w : Watcher R) (e : String × Val) :
    (WatchProperties.entry T iface w e).sent = w.sent ∨
    ∃ r1, WatchProperties.write T w.Properties e = some r1 ∧
      (WatchProperties.entry T iface w e).sent =
        w.sent ++ [⟨some ⟨iface, e.1, e.2⟩, r1⟩] := by
  by_cases hrun : w.status = .running
  · cases hw : WatchProperties.write T w.Properties e with
    | none =>
      left
      unfold WatchProperties.entry
      rw [hrun]
      simp [hw]
    | some r1 =>
      rcases Bool.eq_false_or_eq_true w.closed with hc | hc
      · left
        unfold WatchProperties.entry Watcher.send
        rw [hrun]
        simp [hw, hc]
      · right
        exact ⟨r1, rfl, by rw [WatchProperties.entry_of_write T iface w e r1 hrun hc hw]⟩
  · left
    rw [WatchProperties.entry_of_not_running T iface w e hrun]

/-- The four ways one iteration of the loop can go. -/
theorem WatchProperties.step_cases {R F : Type} (T : StructType R F)
    (PropertiesChanged : String) (cfg : Config) (range : MapRange) (w : Watcher R)
    (sig : Option Signal) :
    WatchProperties.step T PropertiesChanged cfg range w sig = w ∨
    WatchProperties.step T PropertiesChanged cfg range w sig = { w with status := .exited } ∨
    WatchProperties.step T PropertiesChanged cfg range w sig = { w with status := .faulted } ∨
    ∃ s iface changes, sig = some s ∧ w.status = .running ∧ s.Name = PropertiesChanged ∧
      s.Path = cfg.Path ∧ s.Body.get? 0 = some (.string iface) ∧
      s.Body.get? 1 = some (.mapStringVariant changes) ∧
      WatchProperties.step T PropertiesChanged cfg range w sig =
        (range changes).foldl (WatchProperties.entry T iface) w := by
  by_cases hrun : w.status = .running
  · cases sig with
    | none =>
      right; left
      unfold WatchProperties.step
      rw [hrun]
    | some s =>
      by_cases hname : s.Name = PropertiesChanged
      · by_cases hpath : s.Path = cfg.Path
        · cases h0 : s.Body.get? 0 with
          | none =>
            right; right; left
            unfold WatchProperties.step
            rw [hrun]
            simp only [hname, hpath, h0, ne_eq, not_true_eq_false, if_false]
          | some b0 =>
            cases b0 with
            | string iface =>
              cases h1 : s.Body.get? 1 with
              | none =>
                right; right; left
                unfold WatchProperties.step
                rw [hrun]
                simp only [hname, hpath, h0, h1, ne_eq, not_true_eq_false, if_false]
              | some b1 =>
                cases b1 with
                | mapStringVariant changes =>
                  right; right; right
                  exact ⟨s, iface, changes, rfl, hrun, hname, hpath, h0, h1,
                    WatchProperties.step_matching T PropertiesChanged cfg range w s iface
                      changes hrun hname hpath h0 h1⟩
                | _ =>
                  right; right; left
                  unfold WatchProperties.step
                  rw [hrun]
                  simp only [hname, hpath, h0, h1, ne_eq, not_true_eq_false, if_false]
            | _ =>
              right; right; left
              unfold WatchProperties.step
              rw [hrun]
              simp only [hname, hpath, h0, ne_eq, not_true_eq_false, if_false]
        · left
          unfold WatchProperties.step
          rw [hrun]
          simp only [hname, hpath, ne_eq, not_true_eq_false, not_false_eq_true, if_false,
            if_true]
      · left
        unfold WatchProperties.step
        rw [hrun]
        simp only [hname, ne_eq, not_false_eq_true, if_true]
  · left
    unfold WatchProperties.step
    split
    · next h => exact absurd h hrun
    · rfl

theorem WatchProperties.entry_writtenBeforeSent {R F : Type} (T : StructType R F)
    (hT : T.Lawful) (iface : String) (w : Watcher R) (e : String × Val)
    (h : w.WrittenBeforeSent T) :
    (WatchProperties.entry T iface w e).WrittenBeforeSent T := by
  rcases WatchProperties.entry_sent T iface w e with hs | ⟨r1, hw, hs⟩
  · intro s hmem
    rw [hs] at hmem
    exact h s hmem
  · intro s hmem ev f hev hf
    rw [hs, List.mem_append, List.mem_singleton] at hmem
    rcases hmem with hmem | rfl
    · exact h s hmem ev f hev hf
    · simp only [Option.some.injEq] at hev
      subst hev
      simp only at hf ⊢
      rw [WatchProperties.write_exported T _ e f hf] at hw
      exact hT.interface_set _ _ _ _ hw

theorem WatchProperties.foldl_entry_writtenBeforeSent {R F : Type} (T : StructType R F)
    (hT : T.Lawful) (iface : String) (l : VariantMap) (w : Watcher R)
    (h : w.WrittenBeforeSent T) :
    (l.foldl (WatchProperties.entry T iface) w).WrittenBeforeSent T := by
  induction l generalizing w with
  | nil => exact h
  | cons e l ih =>
    exact ih _ (WatchProperties.entry_writtenBeforeSent T hT iface w e h)

theorem WatchProperties.step_writtenBeforeSent {R F : Type} (T : StructType R F)
    (hT : T.Lawful) (PropertiesChanged : String) (cfg : Config) (range : MapRange)
    (w : Watcher R) (sig : Option Signal) (h : w.WrittenBeforeSent T) :
    (WatchProperties.step T PropertiesChanged cfg range w sig).WrittenBeforeSent T := by
  rcases WatchProperties.step_cases T PropertiesChanged cfg range w sig with
    hs | hs | hs | ⟨s, iface, changes, _, _, _, _, _, _, hs⟩
  · rw [hs]; exact h
  · rw [hs]; exact h
  · rw [hs]; exact h
  · rw [hs]; exact WatchProperties.foldl_entry_writtenBeforeSent T hT iface _ w h

theorem WatchProperties.run_writtenBeforeSent {R F : Type} (T : StructType R F)
    (hT : T.Lawful) (PropertiesChanged : String) (cfg : Config) (ranges : Nat → MapRange)
    (w : Watcher R) (sigs : List (Option Signal)) (h : w.WrittenBeforeSent T) :
    (WatchProperties.run T PropertiesChanged cfg ranges w sigs).WrittenBeforeSent T := by
  induction sigs generalizing w ranges with
  | nil => exact h
  | cons sig sigs ih =>
    exact ih _ _ (WatchProperties.step_writtenBeforeSent T hT PropertiesChanged cfg _ w sig h)

/-- C4: in the loop of `Device1.WatchProperties` the write of a field comes before the
send of its event. An entry that names an exported field `f` with a value `v` of its
type makes the goroutine (running, `ch` open) send exactly the event of the entry, at a
moment when the struct holds `v` in `f`; and in every run of the goroutine from its
start, each event sent that names an exported field was sent when the struct held the
value of the event in that field. -/
theorem watchProperties_write_before_send :
    (∀ (iface : String) (w : Watcher Device1Properties) (name : String) (v : Val)
        (f : Device1Field), w.status = .running → w.closed = false →
        Device1Properties.FieldByName name = some (.exported f) →
        v.typeOf = some f.fieldType →
        ∃ p : Device1Properties, p.Interface f = v ∧
          (WatchProperties.entry Device1Properties.reflect iface w (name, v)).sent
            = w.sent ++ [⟨some ⟨iface, name, v⟩, p⟩]) ∧
    (∀ (PropertiesChanged : String) (cfg : Config) (ranges : Nat → MapRange)
        (r : Device1Properties) (sigs : List (Option Signal))
        (s : Sent Device1Properties) (ev : PropertyChanged) (f : Device1Field),
        s ∈ (WatchProperties.run Device1Properties.reflect PropertiesChanged cfg ranges
          (WatchProperties.start r) sigs).sent →
        s.value = some ev →
        Device1Properties.FieldByName ev.Name = some (.exported f) →
        s.props.Interface f = ev.Value) := by
  constructor
  · intro iface w name v f hrun hopen hf hty
    have hsome := (device1Properties_lawful.set_isSome w.Properties f v).2 hty
    obtain ⟨r1, hr1⟩ := Option.isSome_iff_exists.1 hsome
    refine ⟨r1, device1Properties_lawful.interface_set _ _ _ _ hr1, ?_⟩
    rw [WatchProperties.entry_set Device1Properties.reflect iface w (name, v) f r1 hrun hopen
      hf hr1]
  · intro PC cfg ranges r sigs s ev f hs hev hf
    exact WatchProperties.run_writtenBeforeSent Device1Properties.reflect
      device1Properties_lawful PC cfg ranges (WatchProperties.start r) sigs
      (by intro s hs; simp [WatchProperties.start] at hs) s hs ev f hev hf

/-- In the run of the second scenario, the event of `RSSI` was sent when the struct
already held -55 in `RSSI`. -/
theorem watchProperties_write_before_send_witness :
    (⟨some ⟨"org.bluez.Device1", "RSSI", .int16 (-55)⟩,
        { Scenario.props with Connected := true, RSSI := -55 }⟩ : Sent Device1Properties) ∈
      (WatchProperties.run Device1Properties.reflect Scenario.PropertiesChanged Scenario.cfg
        (fun _ => id) (WatchProperties.start Scenario.props)
        [some (Scenario.changed "org.bluez.Device1"
          [("Connected", .bool true), ("RSSI", .int16 (-55))])]).sent ∧
    Device1Properties.Interface { Scenario.props with Connected := true, RSSI := -55 } .RSSI
      = .int16 (-55) :=
  ⟨by decide,
    watchProperties_write_before_send.2 Scenario.PropertiesChanged Scenario.cfg (fun _ => id)
      Scenario.props
      [some (Scenario.changed "org.bluez.Device1"
        [("Connected", .bool true), ("RSSI", .int16 (-55))])]
      ⟨some ⟨"org.bluez.Device1", "RSSI", .int16 (-55)⟩,
        { Scenario.props with Connected := true, RSSI := -55 }⟩
      ⟨"org.bluez.Device1", "RSSI", .int16 (-55)⟩ .RSSI (by decide) rfl (by decide)⟩

/-- C5, at the failing input: of the two entries `Alias = "Kitchen"` and
`Connected = "yes"` of one matching signal, visited in that order, the loop of
`Device1.WatchProperties` sends the event of the first only; `Set` panics on the second
before its event is sent. -/
theorem watchProperties_one_event_per_entry_fails :
    (Device1.WatchProperties.step Scenario.PropertiesChanged Scenario.cfg id
      (WatchProperties.start Scenario.props)
      (some (Scenario.changed "org.bluez.Device1"
        [("Alias", .string "Kitchen"), ("Connected", .string "yes")]))).events
      = [some ⟨"org.bluez.Device1", "Alias", .string "Kitchen"⟩] ∧
    (Device1.WatchProperties.step Scenario.PropertiesChanged Scenario.cfg id
      (WatchProperties.start Scenario.props)
      (some (Scenario.changed "org.bluez.Device1"
        [("Alias", .string "Kitchen"), ("Connected", .string "yes")]))).status
      = .faulted := by
  decide

/-! ### Filtered signals, the nil sentinel, and runs -/

theorem WatchProperties.step_of_not_running {R F : Type} (T : StructType R F)
    (PropertiesChanged : String) (cfg : Config) (range : MapRange) (w : Watcher R)
    (sig : Option Signal) (h : w.status ≠ .running) :
    WatchProperties.step T PropertiesChanged cfg range w sig = w := by
  unfold WatchProperties.step
  split
  · next hs => exact absurd hs h
  · rfl

theorem WatchProperties.step_filtered {R F : Type} (T : StructType R F)
    (PropertiesChanged : String) (cfg : Config) (range : MapRange) (w : Watcher R)
    (sig : Signal) (h : sig.Name ≠ PropertiesChanged ∨ sig.Path ≠ cfg.Path) :
    WatchProperties.step T PropertiesChanged cfg range w (some sig) = w := by
  unfold WatchProperties.step
  split
  · rcases h with h | h
    · simp only [ne_eq, h, not_false_eq_true, if_true]
    · by_cases hn : sig.Name = PropertiesChanged
      · simp only [ne_eq, hn, not_true_eq_false, h, not_false_eq_true, if_false, if_true]
      · simp only [ne_eq, hn, not_false_eq_true, if_true]
  · rfl

theorem WatchProperties.step_nil {R F : Type} (T : StructType R F)
    (PropertiesChanged : String) (cfg : Config) (range : MapRange) (w : Watcher R)
    (h : w.status = .running) :
    WatchProperties.step T PropertiesChanged cfg range w none = { w with status := .exited } := by
  unfold WatchProperties.step
  rw [h]

theorem WatchProperties.run_of_not_running {R F : Type} (T : StructType R F)
    (PropertiesChanged : String) (cfg : Config) (ranges : Nat → MapRange) (w : Watcher R)
    (sigs : List (Option Signal)) (h : w.status ≠ .running) :
    WatchProperties.run T PropertiesChanged cfg ranges w sigs = w := by
  induction sigs generalizing ranges with
  | nil => rfl
  | cons sig sigs ih =>
    unfold WatchProperties.run
    rw [WatchProperties.step_of_not_running T PropertiesChanged cfg _ w sig h, ih]

/-- On a signal that passes both filters the step either panics on the body or is the
`for` loop over the decoded changed map. -/
theorem WatchProperties.step_on_path {R F : Type} (T : StructType R F)
    (PropertiesChanged : String) (cfg : Config) (range : MapRange) (w : Watcher R)
    (s : Signal) (hrun : w.status = .running) (hname : s.Name = PropertiesChanged)
    (hpath : s.Path = cfg.Path) :
    WatchProperties.step T PropertiesChanged cfg range w (some s)
      = { w with status := .faulted } ∨
    ∃ iface changes, s.Body.get? 0 = some (.string iface) ∧
      s.Body.get? 1 = some (.mapStringVariant changes) ∧
      WatchProperties.step T PropertiesChanged cfg range w (some s) =
        (range changes).foldl (WatchProperties.entry T iface) w := by
  cases h0 : s.Body.get? 0 with
  | none =>
    left
    unfold WatchProperties.step
    rw [hrun]
    simp only [hname, hpath, h0, ne_eq, not_true_eq_false, if_false]
  | some b0 =>
    cases b0 with
    | string iface =>
      cases h1 : s.Body.get? 1 with
      | none =>
        left
        unfold WatchProperties.step
        rw [hrun]
        simp only [hname, hpath, h0, h1, ne_eq, not_true_eq_false, if_false]
      | some b1 =>
        cases b1 with
        | mapStringVariant changes =>
          right
          exact ⟨iface, changes, rfl, rfl,
            WatchProperties.step_matching T PropertiesChanged cfg range w s iface
              changes hrun hname hpath h0 h1⟩
        | _ =>
          left
          unfold WatchProperties.step
          rw [hrun]
          simp only [hname, hpath, h0, h1, ne_eq, not_true_eq_false, if_false]
    | _ =>
      left
      unfold WatchProperties.step
      rw [hrun]
      simp only [hname, hpath, h0, ne_eq, not_true_eq_false, if_false]

theorem WatchProperties.foldl_entry_events {R F : Type} (T : StructType R F)
    (iface : String) (l : VariantMap) (w : Watcher R)
    (h : (l.foldl (WatchProperties.entry T iface) w).status = .running) :
    w.status = .running ∧
    (l.foldl (WatchProperties.entry T iface) w).events =
      w.events ++ l.map (fun e => some ⟨iface, e.1, e.2⟩) := by
  induction l generalizing w with
  | nil => exact ⟨h, by simp⟩
  | cons e l ih =>
    rw [List.foldl_cons] at h ⊢
    obtain ⟨h1, h2⟩ := ih _ h
    obtain ⟨r1, _, hrun, _, heq⟩ := WatchProperties.entry_running T iface w e h1
    refine ⟨hrun, ?_⟩
    rw [h2, heq]
    simp [Watcher.events]

/-- A step after which the goroutine is still running has sent, after the events sent
before, the events of the entries of the signal in the order of the `range`. -/
theorem WatchProperties.step_events {R F : Type} (T : StructType R F)
    (PropertiesChanged : String) (cfg : Config) (range : MapRange) (hrange : range.Valid)
    (w : Watcher R) (sig : Option Signal)
    (h : (WatchProperties.step T PropertiesChanged cfg range w sig).status = .running) :
    ∃ piece, piece.Perm (Spec.perSignalEvents PropertiesChanged cfg sig) ∧
      (WatchProperties.step T PropertiesChanged cfg range w sig).events = w.events ++ piece := by
  by_cases hrun : w.status = .running
  · cases sig with
    | none =>
      rw [WatchProperties.step_nil T PropertiesChanged cfg range w hrun] at h
      simp at h
    | some s =>
      by_cases hf : s.Name ≠ PropertiesChanged ∨ s.Path ≠ cfg.Path
      · refine ⟨[], ?_, ?_⟩
        · have : ¬ (s.Name = PropertiesChanged ∧ s.Path = cfg.Path) := by
            intro hc
            rcases hf with hf | hf
            · exact hf hc.1
            · exact hf hc.2
          simp [Spec.perSignalEvents, this]
        · rw [WatchProperties.step_filtered T PropertiesChanged cfg range w s hf]
          simp
      · rw [not_or, not_not, not_not] at hf
        rcases WatchProperties.step_on_path T PropertiesChanged cfg range w s hrun hf.1 hf.2
          with hs | ⟨iface, changes, h0, h1, hs⟩
        · rw [hs] at h
          simp at h
        · rw [hs] at h ⊢
          refine ⟨(range changes).map (fun e => some ⟨iface, e.1, e.2⟩), ?_,
            (WatchProperties.foldl_entry_events T iface _ w h).2⟩
          simp only [Spec.perSignalEvents, hf, and_self, if_true, h0, h1]
          exact (hrange changes).map _
  · rw [WatchProperties.step_of_not_running T PropertiesChanged cfg range w sig hrun] at h
    exact absurd h hrun

/-- The events of a run after which the goroutine is still running: after the events
sent before, one piece for each received value, in order of receipt, each piece a
permutation of the per-entry events of its signal. -/
theorem WatchProperties.run_events {R F : Type} (T : StructType R F)
    (PropertiesChanged : String) (cfg : Config) (ranges : Nat → MapRange)
    (hranges : ∀ n, (ranges n).Valid) (w : Watcher R) (sigs : List (Option Signal))
    (h : (WatchProperties.run T PropertiesChanged cfg ranges w sigs).status = .running) :
    ∃ pieces : List (List (Option PropertyChanged)),
      List.Forall₂ (fun sig piece => piece.Perm (Spec.perSignalEvents PropertiesChanged cfg sig))
        sigs pieces ∧
      (WatchProperties.run T PropertiesChanged cfg ranges w sigs).events
        = w.events ++ pieces.flatten := by
  induction sigs generalizing w ranges with
  | nil => exact ⟨[], List.Forall₂.nil, by simp [WatchProperties.run]⟩
  | cons sig sigs ih =>
    unfold WatchProperties.run at h ⊢
    have hstep : (WatchProperties.step T PropertiesChanged cfg (ranges 0) w sig).status
        = .running := by
      by_contra hne
      rw [WatchProperties.run_of_not_running T PropertiesChanged cfg _ _ sigs hne] at h
      exact hne h
    obtain ⟨piece, hperm, hev⟩ := WatchProperties.step_events T PropertiesChanged cfg
      (ranges 0) (hranges 0) w sig hstep
    obtain ⟨pieces, hall, hrest⟩ := ih (fun n => ranges (n + 1)) (fun n => hranges (n + 1)) _ h
    refine ⟨piece :: pieces, List.Forall₂.cons hperm hall, ?_⟩
    rw [hrest, hev, List.flatten_cons, List.append_assoc]

/-- C6, as amended: for every finite sequence of values received by the loop of
`Device1.WatchProperties` after which the goroutine is still running (no nil sentinel and
no panic among them), the events sent are the concatenation, in order of receipt, of one
piece for each received signal, and the piece of a signal is a permutation of its
per-entry events: within one signal the events follow the order in which the `range`
visits the map, which Go does not fix. -/
theorem watchProperties_events_in_receipt_order (PropertiesChanged : String)
    (cfg : Config) (ranges : Nat → MapRange) (r : Device1Properties)
    (sigs : List (Option Signal)) (hranges : ∀ n, (ranges n).Valid)
    (hrun : (WatchProperties.run Device1Properties.reflect PropertiesChanged cfg ranges
      (WatchProperties.start r) sigs).status = .running) :
    ∃ pieces : List (List (Option PropertyChanged)),
      List.Forall₂ (fun sig piece => piece.Perm (Spec.perSignalEvents PropertiesChanged cfg sig))
        sigs pieces ∧
      (WatchProperties.run Device1Properties.reflect PropertiesChanged cfg ranges
        (WatchProperties.start r) sigs).events = pieces.flatten := by
  obtain ⟨pieces, hall, hev⟩ := WatchProperties.run_events Device1Properties.reflect
    PropertiesChanged cfg ranges hranges (WatchProperties.start r) sigs hrun
  exact ⟨pieces, hall, by rw [hev]; simp [WatchProperties.start, Watcher.events]⟩

/-- Two signals of the second scenario in a row, each visited in reverse: the events
come signal by signal. -/
theorem watchProperties_events_in_receipt_order_witness :
    ∃ pieces : List (List (Option PropertyChanged)),
      List.Forall₂
        (fun sig piece =>
          piece.Perm (Spec.perSignalEvents Scenario.PropertiesChanged Scenario.cfg sig))
        [some (Scenario.changed "org.bluez.Device1"
            [("Connected", .bool true), ("RSSI", .int16 (-55))]),
          some (Scenario.changed "org.bluez.Device1" [("RSSI", .int16 (-60))])]
        pieces ∧
      (WatchProperties.run Device1Properties.reflect Scenario.PropertiesChanged Scenario.cfg
        (fun _ => List.reverse) (WatchProperties.start Scenario.props)
        [some (Scenario.changed "org.bluez.Device1"
            [("Connected", .bool true), ("RSSI", .int16 (-55))]),
          some (Scenario.changed "org.bluez.Device1" [("RSSI", .int16 (-60))])]).events
        = pieces.flatten :=
  watchProperties_events_in_receipt_order Scenario.PropertiesChanged Scenario.cfg
    (fun _ => List.reverse) Scenario.props
    [some (Scenario.changed "org.bluez.Device1"
        [("Connected", .bool true), ("RSSI", .int16 (-55))]),
      some (Scenario.changed "org.bluez.Device1" [("RSSI", .int16 (-60))])]
    (fun _ m => List.reverse_perm m) (by decide)

/-- C6, the counterexample: reverse order is a legal order for a `range` over a map,
and with it the signal of the second scenario yields the event of `RSSI` first and the
event of `Connected` second, not the order of the entries of the changed map. -/
theorem watchProperties_entry_order_not_preserved :
    MapRange.Valid List.reverse ∧
    (WatchProperties.run Device1Properties.reflect Scenario.PropertiesChanged Scenario.cfg
      (fun _ => List.reverse) (WatchProperties.start Scenario.props)
      [some (Scenario.changed "org.bluez.Device1"
        [("Connected", .bool true), ("RSSI", .int16 (-55))])]).events
      = [some ⟨"org.bluez.Device1", "RSSI", .int16 (-55)⟩,
          some ⟨"org.bluez.Device1", "Connected", .bool true⟩] ∧
    (WatchProperties.run Device1Properties.reflect Scenario.PropertiesChanged Scenario.cfg
      (fun _ => List.reverse) (WatchProperties.start Scenario.props)
      [some (Scenario.changed "org.bluez.Device1"
        [("Connected", .bool true), ("RSSI", .int16 (-55))])]).events
      ≠ Spec.perSignalEvents Scenario.PropertiesChanged Scenario.cfg
          (some (Scenario.changed "org.bluez.Device1"
            [("Connected", .bool true), ("RSSI", .int16 (-55))])) :=
  ⟨fun m => List.reverse_perm m, by decide, by decide⟩

/-- C7: a signal other than nil whose member name is not `bluez.PropertiesChanged`, or
whose path is not the path of the binding, is skipped by the loop of `WatchProperties`,
of `Device1` and of `PhonebookAccess1`: the whole state is as before the step, so the
properties struct is unchanged, no event is sent, and a running goroutine is still
running. -/
theorem watchProperties_skips_other_signals :
    (∀ (PropertiesChanged : String) (cfg : Config) (range : MapRange)
        (w : Watcher Device1Properties) (sig : Signal),
        w.status = .running →
        sig.Name ≠ PropertiesChanged ∨ sig.Path ≠ cfg.Path →
        Device1.WatchProperties.step PropertiesChanged cfg range w (some sig) = w ∧
        (Device1.WatchProperties.step PropertiesChanged cfg range w (some sig)).status
          = .running) ∧
    (∀ (PropertiesChanged : String) (cfg : Config) (range : MapRange)
        (w : Watcher PhonebookAccess1Properties) (sig : Signal),
        w.status = .running →
        sig.Name ≠ PropertiesChanged ∨ sig.Path ≠ cfg.Path →
        PhonebookAccess1.WatchProperties.step PropertiesChanged cfg range w (some sig) = w ∧
        (PhonebookAccess1.WatchProperties.step PropertiesChanged cfg range w
          (some sig)).status = .running) := by
  constructor
  · intro PC cfg range w sig hrun h
    have := WatchProperties.step_filtered Device1Properties.reflect PC cfg range w sig h
    exact ⟨this, by rw [Device1.WatchProperties.step, this]; exact hrun⟩
  · intro PC cfg range w sig hrun h
    have := WatchProperties.step_filtered PhonebookAccess1Properties.reflect PC cfg range w
      sig h
    exact ⟨this, by rw [PhonebookAccess1.WatchProperties.step, this]; exact hrun⟩

/-- An `InterfacesAdded` signal, and a `PropertiesChanged` signal of another device,
leave the watcher of the scenario as it is. -/
theorem watchProperties_skips_other_signals_witness :
    Device1.WatchProperties.step Scenario.PropertiesChanged Scenario.cfg id
      (WatchProperties.start Scenario.props)
      (some { Scenario.changed "org.bluez.Device1" [("Connected", .bool true)] with
        Name := "org.freedesktop.DBus.ObjectManager.InterfacesAdded" })
      = WatchProperties.start Scenario.props ∧
    Device1.WatchProperties.step Scenario.PropertiesChanged Scenario.cfg id
      (WatchProperties.start Scenario.props)
      (some { Scenario.changed "org.bluez.Device1" [("Connected", .bool true)] with
        Path := "/org/bluez/hci0/dev_11_22_33_44_55_66" })
      = WatchProperties.start Scenario.props :=
  ⟨(watchProperties_skips_other_signals.1 Scenario.PropertiesChanged Scenario.cfg id
      (WatchProperties.start Scenario.props)
      { Scenario.changed "org.bluez.Device1" [("Connected", .bool true)] with
        Name := "org.freedesktop.DBus.ObjectManager.InterfacesAdded" }
      rfl (Or.inl (by decide))).1,
    (watchProperties_skips_other_signals.1 Scenario.PropertiesChanged Scenario.cfg id
      (WatchProperties.start Scenario.props)
      { Scenario.changed "org.bluez.Device1" [("Connected", .bool true)] with
        Path := "/org/bluez/hci0/dev_11_22_33_44_55_66" }
      rfl (Or.inr (by decide))).1⟩

/-! ### The interface name of the body -/

theorem WatchProperties.entry_interface_irrelevant {R F : Type} (T : StructType R F)
    (i1 i2 : String) (w1 w2 : Watcher R) (e : String × Val)
    (hp : w1.Properties = w2.Properties) (hs : w1.status = w2.status)
    (hc : w1.closed = w2.closed) (hch : w1.changes = w2.changes) :
    (WatchProperties.entry T i1 w1 e).Properties = (WatchProperties.entry T i2 w2 e).Properties ∧
    (WatchProperties.entry T i1 w1 e).status = (WatchProperties.entry T i2 w2 e).status ∧
    (WatchProperties.entry T i1 w1 e).closed = (WatchProperties.entry T i2 w2 e).closed ∧
    (WatchProperties.entry T i1 w1 e).changes = (WatchProperties.entry T i2 w2 e).changes := by
  obtain ⟨p1, s1, c1, l1⟩ := w1
  obtain ⟨p2, s2, c2, l2⟩ := w2
  simp only at hp hs hc
  subst hp hs hc
  unfold WatchProperties.entry Watcher.send
  cases s1 <;> simp only [and_self, true_and, hch]
  cases WatchProperties.write T p1 e with
  | none => simpa [Watcher.changes, Watcher.events] using hch
  | some r =>
    cases c1
    · simp only [Watcher.changes, Watcher.events, Bool.false_eq_true, if_false, List.map_append,
        List.map_cons, List.map_nil, Option.map_some', PropertyChanged.change, true_and] at hch ⊢
      rw [hch]
    · simpa [Watcher.changes, Watcher.events] using hch

theorem WatchProperties.foldl_entry_interface_irrelevant {R F : Type} (T : StructType R F)
    (i1 i2 : String) (l : VariantMap) (w1 w2 : Watcher R)
    (hp : w1.Properties = w2.Properties) (hs : w1.status = w2.status)
    (hc : w1.closed = w2.closed) (hch : w1.changes = w2.changes) :
    (l.foldl (WatchProperties.entry T i1) w1).Properties
      = (l.foldl (WatchProperties.entry T i2) w2).Properties ∧
    (l.foldl (WatchProperties.entry T i1) w1).status
      = (l.foldl (WatchProperties.entry T i2) w2).status ∧
    (l.foldl (WatchProperties.entry T i1) w1).changes
      = (l.foldl (WatchProperties.entry T i2) w2).changes := by
  induction l generalizing w1 w2 with
  | nil => exact ⟨hp, hs, hch⟩
  | cons e l ih =>
    obtain ⟨a, b, c, d⟩ := WatchProperties.entry_interface_irrelevant T i1 i2 w1 w2 e hp hs
      hc hch
    exact ih _ _ a b c d

theorem WatchProperties.foldl_entry_sent_interface {R F : Type} (T : StructType R F)
    (iface : String) (l : VariantMap) (w : Watcher R) :
    ∃ done : VariantMap, (l.foldl (WatchProperties.entry T iface) w).events
      = w.events ++ done.map (fun e => some ⟨iface, e.1, e.2⟩) := by
  induction l generalizing w with
  | nil => exact ⟨[], by simp⟩
  | cons e l ih =>
    obtain ⟨done, hdone⟩ := ih (WatchProperties.entry T iface w e)
    rw [List.foldl_cons, hdone]
    rcases WatchProperties.entry_sent T iface w e with hs | ⟨r1, _, hs⟩
    · exact ⟨done, by simp [Watcher.events, hs]⟩
    · exact ⟨e :: done, by simp [Watcher.events, hs]⟩

theorem WatchProperties.step_interface_irrelevant {R F : Type} (T : StructType R F)
    (PropertiesChanged : String) (cfg : Config) (range : MapRange) (w : Watcher R)
    (sig : Signal) (i1 i2 : String) (rest : List BodyVal) :
    (WatchProperties.step T PropertiesChanged cfg range w
        (some { sig with Body := .string i1 :: rest })).Properties
      = (WatchProperties.step T PropertiesChanged cfg range w
        (some { sig with Body := .string i2 :: rest })).Properties ∧
    (WatchProperties.step T PropertiesChanged cfg range w
        (some { sig with Body := .string i1 :: rest })).status
      = (WatchProperties.step T PropertiesChanged cfg range w
        (some { sig with Body := .string i2 :: rest })).status ∧
    (WatchProperties.step T PropertiesChanged cfg range w
        (some { sig with Body := .string i1 :: rest })).changes
      = (WatchProperties.step T PropertiesChanged cfg range w
        (some { sig with Body := .string i2 :: rest })).changes := by
  unfold WatchProperties.step
  cases w.status <;> simp only [and_self]
  by_cases hn : sig.Name = PropertiesChanged
  · by_cases hpa : sig.Path = cfg.Path
    · simp only [hn, hpa, ne_eq, not_true_eq_false, if_false, List.get?_cons_zero,
        List.get?_cons_succ]
      cases rest with
      | nil => simp
      | cons b rest =>
        cases b with
        | mapStringVariant changes =>
          simp only [List.get?_cons_zero]
          exact WatchProperties.foldl_entry_interface_irrelevant T i1 i2 _ w w rfl rfl rfl rfl
        | _ => simp
    · simp [hn, hpa]
  · simp [hn]

/-- C8, as amended: the loop of `Device1.WatchProperties` filters on the member name
and the path only, never on the interface name of the body. Whatever interface a signal
names (here `iface`, against the same signal naming the interface of the binding), the
step yields the same properties struct, the same status and events of the same names and
values; and the events sent by the step carry the interface name of the body. -/
theorem watchProperties_interface_not_filtered (PropertiesChanged : String) (cfg : Config)
    (range : MapRange) (w : Watcher Device1Properties) (sig : Signal) (iface : String)
    (rest : List BodyVal) :
    (Device1.WatchProperties.step PropertiesChanged cfg range w
        (some { sig with Body := .string iface :: rest })).Properties
      = (Device1.WatchProperties.step PropertiesChanged cfg range w
        (some { sig with Body := .string cfg.Iface :: rest })).Properties ∧
    (Device1.WatchProperties.step PropertiesChanged cfg range w
        (some { sig with Body := .string iface :: rest })).status
      = (Device1.WatchProperties.step PropertiesChanged cfg range w
        (some { sig with Body := .string cfg.Iface :: rest })).status ∧
    (Device1.WatchProperties.step PropertiesChanged cfg range w
        (some { sig with Body := .string iface :: rest })).changes
      = (Device1.WatchProperties.step PropertiesChanged cfg range w
        (some { sig with Body := .string cfg.Iface :: rest })).changes ∧
    ∃ done : VariantMap,
      (Device1.WatchProperties.step PropertiesChanged cfg range w
        (some { sig with Body := .string iface :: rest })).events
      = w.events ++ done.map (fun e => some ⟨iface, e.1, e.2⟩) := by
  obtain ⟨a, b, c⟩ := WatchProperties.step_interface_irrelevant Device1Properties.reflect
    PropertiesChanged cfg range w sig iface cfg.Iface rest
  refine ⟨a, b, c, ?_⟩
  unfold Device1.WatchProperties.step
  rcases WatchProperties.step_cases Device1Properties.reflect PropertiesChanged cfg range w
    (some { sig with Body := .string iface :: rest }) with
    hs | hs | hs | ⟨s, i1, changes, hs1, _, _, _, h0, _, hs⟩
  · exact ⟨[], by rw [hs]; simp⟩
  · exact ⟨[], by rw [hs]; simp [Watcher.events]⟩
  · exact ⟨[], by rw [hs]; simp [Watcher.events]⟩
  · injection hs1 with hs1
    subst hs1
    simp only [List.get?_cons_zero, Option.some.injEq, BodyVal.string.injEq] at h0
    subst h0
    rw [hs]
    exact WatchProperties.foldl_entry_sent_interface Device1Properties.reflect _ _ w

/-- C8, the counterexample: a `PropertiesChanged` signal on the path of the `Device1`
binding whose body names `org.bluez.MediaControl1` sets `Connected` in the struct of
`Device1` and is announced downstream. -/
theorem watchProperties_other_interface_applied :
    Device1.WatchProperties.step Scenario.PropertiesChanged Scenario.cfg id
      (WatchProperties.start Scenario.props)
      (some (Scenario.changed "org.bluez.MediaControl1" [("Connected", .bool true)]))
      = { Properties := { Scenario.props with Connected := true }, status := .running,
          closed := false,
          sent := [⟨some ⟨"org.bluez.MediaControl1", "Connected", .bool true⟩,
            { Scenario.props with Connected := true }⟩] } ∧
    (Device1.WatchProperties.step Scenario.PropertiesChanged Scenario.cfg id
      (WatchProperties.start Scenario.props)
      (some (Scenario.changed "org.bluez.MediaControl1"
        [("Connected", .bool true)]))).Properties ≠ Scenario.props ∧
    Scenario.cfg.Iface ≠ "org.bluez.MediaControl1" := by
  decide

/-- C9: a nil received from the input channel makes the running goroutine of
`Device1.WatchProperties` return. The step changes nothing in the properties struct,
sends nothing and ends in the status `exited`, not `faulted`; and from there no sequence
of later values changes anything: no write, no event. -/
theorem watchProperties_nil_terminates (PropertiesChanged : String) (cfg : Config)
    (range : MapRange) (w : Watcher Device1Properties) (hrun : w.status = .running) :
    (Device1.WatchProperties.step PropertiesChanged cfg range w none).Properties
      = w.Properties ∧
    (Device1.WatchProperties.step PropertiesChanged cfg range w none).sent = w.sent ∧
    (Device1.WatchProperties.step PropertiesChanged cfg range w none).status = .exited ∧
    ∀ (ranges : Nat → MapRange) (sigs : List (Option Signal)),
      WatchProperties.run Device1Properties.reflect PropertiesChanged cfg ranges
        (Device1.WatchProperties.step PropertiesChanged cfg range w none) sigs
      = Device1.WatchProperties.step PropertiesChanged cfg range w none := by
  unfold Device1.WatchProperties.step
  rw [WatchProperties.step_nil Device1Properties.reflect PropertiesChanged cfg range w hrun]
  refine ⟨rfl, rfl, rfl, fun ranges sigs => ?_⟩
  exact WatchProperties.run_of_not_running Device1Properties.reflect PropertiesChanged cfg
    ranges _ sigs (by simp)

/-- After the nil sentinel, the signal of the second scenario is neither applied nor
announced. -/
theorem watchProperties_nil_terminates_witness :
    WatchProperties.run Device1Properties.reflect Scenario.PropertiesChanged Scenario.cfg
      (fun _ => id)
      (Device1.WatchProperties.step Scenario.PropertiesChanged Scenario.cfg id
        (WatchProperties.start Scenario.props) none)
      [some (Scenario.changed "org.bluez.Device1"
        [("Connected", .bool true), ("RSSI", .int16 (-55))])]
      = Device1.WatchProperties.step Scenario.PropertiesChanged Scenario.cfg id
        (WatchProperties.start Scenario.props) none ∧
    (Device1.WatchProperties.step Scenario.PropertiesChanged Scenario.cfg id
        (WatchProperties.start Scenario.props) none).status = .exited :=
  ⟨(watchProperties_nil_terminates Scenario.PropertiesChanged Scenario.cfg id
      (WatchProperties.start Scenario.props) rfl).2.2.2 (fun _ => id)
      [some (Scenario.changed "org.bluez.Device1"
        [("Connected", .bool true), ("RSSI", .int16 (-55))])],
    (watchProperties_nil_terminates Scenario.PropertiesChanged Scenario.cfg id
      (WatchProperties.start Scenario.props) rfl).2.2.1⟩

/-- C10, at the failing input: `UnwatchProperties` on a fresh watcher of `Device1`
returns with `ch` closed and the goroutine still in its loop; the next matching signal,
`Connected = true`, is written to the struct and its send on the closed `ch` panics. -/
theorem unwatchProperties_leaves_loop_running :
    UnwatchProperties (WatchProperties.start Scenario.props)
      = some { Properties := Scenario.props, status := .running, closed := true,
               sent := [⟨none, Scenario.props⟩] } ∧
    (UnwatchProperties (WatchProperties.start Scenario.props)).map
      (fun w => Device1.WatchProperties.step Scenario.PropertiesChanged Scenario.cfg id w
        (some (Scenario.changed "org.bluez.Device1" [("Connected", .bool true)])))
      = some { Properties := { Scenario.props with Connected := true }, status := .faulted,
               closed := true, sent := [⟨none, Scenario.props⟩] } := by
  decide

/-! ### The methods of the binding -/

/-- C11, at the failing input: the second of two successive `UnwatchProperties(ch)`
panics, on its send on the channel that the first has closed. A second `Close`, whose
`unregisterPropertiesSignal` is guarded by a nil check, sends nothing. -/
theorem unwatchProperties_twice_panics :
    (UnwatchProperties (WatchProperties.start Scenario.props)).isSome = true ∧
    (UnwatchProperties (WatchProperties.start Scenario.props)).bind UnwatchProperties = none ∧
    Binding.Close { Scenario.device with propertiesSignal := some 7 }
      = (Scenario.device, [.SendNil 7, .Disconnect]) ∧
    Binding.Close (Binding.Close { Scenario.device with propertiesSignal := some 7 }).1
      = (Scenario.device, [.Disconnect]) := by
  decide

/-- C12: `SetProperty` and every shim `Set<Property>`, of `Device1` and of
`PhonebookAccess1`, for every name, value and reply of the client: the binding after the
call is the binding before it, its properties struct included; the one call made is
`SetProperty` of the client with that name and value; and the result is the reply of that
call. -/
theorem setProperty_leaves_record :
    (∀ (a : Device1) (name : String) (value : Val) (reply : Option Error),
      (a.SetProperty name value reply).binding.Properties = a.Properties ∧
      (a.SetProperty name value reply).binding = a ∧
      (a.SetProperty name value reply).calls = [.SetProperty name value] ∧
      (a.SetProperty name value reply).result = reply) ∧
    (∀ (a : Device1) (f : Device1Field) (v : Val) (reply : Option Error),
      (Device1.Set a f v reply).binding.Properties = a.Properties ∧
      (Device1.Set a f v reply).binding = a ∧
      (Device1.Set a f v reply).calls = [.SetProperty f.fieldName v] ∧
      (Device1.Set a f v reply).result = reply) ∧
    (∀ (a : PhonebookAccess1) (name : String) (value : Val) (reply : Option Error),
      (a.SetProperty name value reply).binding.Properties = a.Properties ∧
      (a.SetProperty name value reply).binding = a ∧
      (a.SetProperty name value reply).calls = [.SetProperty name value] ∧
      (a.SetProperty name value reply).result = reply) ∧
    (∀ (a : PhonebookAccess1) (f : PhonebookAccess1Field) (v : Val) (reply : Option Error),
      (PhonebookAccess1.Set a f v reply).binding.Properties = a.Properties ∧
      (PhonebookAccess1.Set a f v reply).binding = a ∧
      (PhonebookAccess1.Set a f v reply).calls = [.SetProperty f.fieldName v] ∧
      (PhonebookAccess1.Set a f v reply).result = reply) :=
  ⟨fun _ _ _ _ => ⟨rfl, rfl, rfl, rfl⟩, fun _ _ _ _ => ⟨rfl, rfl, rfl, rfl⟩,
    fun _ _ _ _ => ⟨rfl, rfl, rfl, rfl⟩, fun _ _ _ _ => ⟨rfl, rfl, rfl, rfl⟩⟩

/-- C13: `NewDevice1` and `NewPhonebookAccess1` fetch the properties into a new struct
and return the error `err` exactly when that fetch returns `err`; when the fetch returns
no error they return a binding on the given object path, with the interface name and the
service name of their kind, whose properties struct is the one that the fetch has
filled. -/
theorem newBinding_fetches_or_fails :
    (∀ (objectPath : String)
        (fetch : Device1Properties → Device1Properties × Option Error),
      (∀ err, NewDevice1 objectPath fetch = .error err ↔
        (fetch Device1Properties.zero).2 = some err) ∧
      ((fetch Device1Properties.zero).2 = none →
        ∃ a, NewDevice1 objectPath fetch = .ok a ∧ a.Path = objectPath ∧
          a.Interface = "org.bluez.Device1" ∧ a.client.Config.Name = "org.bluez" ∧
          a.Properties = (fetch Device1Properties.zero).1)) ∧
    (∀ (objectPath : String)
        (fetch : PhonebookAccess1Properties → PhonebookAccess1Properties × Option Error),
      (∀ err, NewPhonebookAccess1 objectPath fetch = .error err ↔
        (fetch PhonebookAccess1Properties.zero).2 = some err) ∧
      ((fetch PhonebookAccess1Properties.zero).2 = none →
        ∃ a, NewPhonebookAccess1 objectPath fetch = .ok a ∧ a.Path = objectPath ∧
          a.Interface = "org.bluez.obex.PhonebookAccess1" ∧
          a.client.Config.Name = "org.bluez.obex" ∧
          a.Properties = (fetch PhonebookAccess1Properties.zero).1)) := by
  constructor
  · intro objectPath fetch
    unfold NewDevice1
    simp only [Binding.GetProperties]
    cases h : (fetch Device1Properties.zero).2 with
    | none =>
      exact ⟨fun err => by simp, fun _ => ⟨_, rfl, rfl, rfl, rfl, rfl⟩⟩
    | some e =>
      exact ⟨fun err => by simp, fun hc => by simp at hc⟩
  · intro objectPath fetch
    unfold NewPhonebookAccess1
    simp only [Binding.GetProperties]
    cases h : (fetch PhonebookAccess1Properties.zero).2 with
    | none =>
      exact ⟨fun err => by simp, fun _ => ⟨_, rfl, rfl, rfl, rfl, rfl⟩⟩
    | some e =>
      exact ⟨fun err => by simp, fun hc => by simp at hc⟩

/-- The first scenario: the fetch fills the struct without an error, and `NewDevice1`
returns the binding on the path of the device with that struct. -/
theorem newBinding_fetches_or_fails_witness :
    ∃ a, NewDevice1 "/org/bluez/hci0/dev_AA_BB_CC_DD_EE_FF" (fun _ => (Scenario.props, none))
        = .ok a ∧
      a.Path = "/org/bluez/hci0/dev_AA_BB_CC_DD_EE_FF" ∧
      a.Interface = "org.bluez.Device1" ∧ a.client.Config.Name = "org.bluez" ∧
      a.Properties = Scenario.props :=
  (newBinding_fetches_or_fails.1 "/org/bluez/hci0/dev_AA_BB_CC_DD_EE_FF"
    (fun _ => (Scenario.props, none))).2 rfl

theorem Binding.GetObjectManagerSignal.calls_held {R : Type} (a : Binding R) (c : Chan)
    (replies : List (Except Error ObjectManager × Except Error Chan))
    (h : a.objectManagerSignal = some c) :
    (Binding.GetObjectManagerSignal.calls a replies).1 = a ∧
    ∀ out ∈ (Binding.GetObjectManagerSignal.calls a replies).2, out = ([], .ok c) := by
  induction replies with
  | nil => exact ⟨rfl, by simp [Binding.GetObjectManagerSignal.calls]⟩
  | cons r rs ih =>
    have hstep : a.GetObjectManagerSignal r.1 r.2 = { binding := a, calls := [], result := .ok c } := by
      unfold Binding.GetObjectManagerSignal
      rw [h]
    unfold Binding.GetObjectManagerSignal.calls
    rw [hstep]
    refine ⟨ih.1, ?_⟩
    intro out hout
    rcases List.mem_cons.1 hout with rfl | hout
    · rfl
    · exact ih.2 out hout

/-- C15: `GetObjectManagerSignal`, of `Device1` and of `PhonebookAccess1` (`R` is the
type of the properties struct), holds at most one subscription. While a channel is held,
every call returns that channel and makes no call to the transport; the call that
succeeds from a binding holding none makes the one `Register` of the object manager and
holds its channel. The closure `cancel` on a binding that holds a channel sends nil on
it, unregisters it and clears the reference; on a binding that holds none, and so as a
second `cancel`, it does nothing. -/
theorem getObjectManagerSignal_caches {R : Type} :
    (∀ (a : Binding R) (c : Chan)
        (replies : List (Except Error ObjectManager × Except Error Chan)),
      a.objectManagerSignal = some c →
      (Binding.GetObjectManagerSignal.calls a replies).1 = a ∧
      ∀ out ∈ (Binding.GetObjectManagerSignal.calls a replies).2, out = ([], .ok c)) ∧
    (∀ (a : Binding R) (manager : Except Error ObjectManager) (reply : Except Error Chan)
        (c : Chan),
      a.objectManagerSignal = none →
      (a.GetObjectManagerSignal manager reply).result = .ok c →
      reply = .ok c ∧
      (a.GetObjectManagerSignal manager reply).binding.objectManagerSignal = some c ∧
      (a.GetObjectManagerSignal manager reply).calls.count .ObjectManagerRegister = 1) ∧
    (∀ (a : Binding R) (c : Chan), a.objectManagerSignal = some c →
      a.cancel = ({ a with objectManagerSignal := none },
        [.SendNil c, .ObjectManagerUnregister c])) ∧
    (∀ (a : Binding R), a.objectManagerSignal = none → a.cancel = (a, [])) ∧
    (∀ (a : Binding R), a.cancel.1.cancel = (a.cancel.1, [])) := by
  refine ⟨Binding.GetObjectManagerSignal.calls_held, ?_, ?_, ?_, ?_⟩
  · intro a manager reply c hnone hres
    unfold Binding.GetObjectManagerSignal at hres ⊢
    rw [hnone] at hres ⊢
    cases hom : a.objectManager with
    | some om =>
      rw [hom] at hres
      cases reply with
      | error err => simp at hres
      | ok s =>
        simp only [Except.ok.injEq] at hres
        subst hres
        exact ⟨rfl, rfl, by simp⟩
    | none =>
      rw [hom] at hres
      cases manager with
      | error err => simp at hres
      | ok om =>
        cases reply with
        | error err => simp at hres
        | ok s =>
          simp only [Except.ok.injEq] at hres
          subst hres
          exact ⟨rfl, rfl, by simp⟩
  · intro a c h
    unfold Binding.cancel
    rw [h]
  · intro a h
    unfold Binding.cancel
    rw [h]
  · intro a
    cases h : a.objectManagerSignal with
    | none =>
      have : a.cancel = (a, []) := by unfold Binding.cancel; rw [h]
      rw [this]
      exact this
    | some c =>
      have : a.cancel = ({ a with objectManagerSignal := none },
          [.SendNil c, .ObjectManagerUnregister c]) := by
        unfold Binding.cancel; rw [h]
      rw [this]
      rfl

/-- From the binding of the scenario: the first call gets the manager 1 and the channel
5; the two calls after it return the channel 5 without a call to the transport, whatever
the transport would reply. -/
theorem getObjectManagerSignal_caches_witness :
    (Scenario.device.GetObjectManagerSignal (.ok 1) (.ok 5)).binding.objectManagerSignal
      = some 5 ∧
    (Scenario.device.GetObjectManagerSignal (.ok 1) (.ok 5)).calls.count
      .ObjectManagerRegister = 1 ∧
    ∀ out ∈ (Binding.GetObjectManagerSignal.calls
        (Scenario.device.GetObjectManagerSignal (.ok 1) (.ok 5)).binding
        [(.ok 2, .ok 6), (.error "down", .error "down")]).2,
      out = ([], .ok 5) :=
  ⟨(getObjectManagerSignal_caches.2.1 Scenario.device (.ok 1) (.ok 5) 5 rfl rfl).2.1,
    (getObjectManagerSignal_caches.2.1 Scenario.device (.ok 1) (.ok 5) 5 rfl rfl).2.2,
    (getObjectManagerSignal_caches.1
      (Scenario.device.GetObjectManagerSignal (.ok 1) (.ok 5)).binding 5
      [(.ok 2, .ok 6), (.error "down", .error "down")] rfl).2⟩

/-- C16, at the failing input: the accessors of `ManufacturerData` use a map with
string keys where the field of the struct is a map with keys of 16 bits, and they are the
only accessors, of the two bindings, whose type is not that of the field. On a value of
the declared type of the field, `GetManufacturerData` panics in its type assertion. -/
theorem getManufacturerData_asserts_string_keys :
    Device1Field.fieldType .ManufacturerData = .mapUint16Interface ∧
    Device1Field.getterType .ManufacturerData = .mapStringInterface ∧
    Device1Field.setterType .ManufacturerData = .mapStringInterface ∧
    Device1Field.all.filter (fun f => f.getterType != f.fieldType) = [.ManufacturerData] ∧
    Device1Field.all.filter (fun f => f.setterType != f.fieldType) = [.ManufacturerData] ∧
    PhonebookAccess1Field.all.filter
      (fun f => f.getterType != f.fieldType || f.setterType != f.fieldType) = [] ∧
    (Device1.Get Scenario.device .ManufacturerData
      (.ok (.mapUint16Interface [(76, [2, 21])]))).isSome = false := by
  decide

theorem Binding.subscribeAll_held {R : Type} (PropertiesInterface : String) (a : Binding R)
    (c : Chan) (ops : List Subscribe) (h : a.propertiesSignal = some c) :
    Binding.subscribeAll PropertiesInterface a ops =
      (a, List.replicate (ops.countP Subscribe.isWatch) (.Register a.Path a.Interface)) := by
  induction ops with
  | nil => rfl
  | cons op ops ih =>
    cases op with
    | GetPropertiesSignal reply =>
      have hstep : a.GetPropertiesSignal PropertiesInterface reply
          = { binding := a, calls := [], result := .ok c } := by
        unfold Binding.GetPropertiesSignal
        rw [h]
      unfold Binding.subscribeAll
      rw [hstep, ih]
      simp [Subscribe.isWatch]
    | WatchProperties reply =>
      unfold Binding.subscribeAll
      simp only [Binding.WatchProperties]
      rw [ih]
      simp [Subscribe.isWatch, List.replicate_succ]

/-- C17, as amended: `GetPropertiesSignal` (of `Device1` and of `PhonebookAccess1`, `R`
being the type of the properties struct) holds at most one subscription: while a channel
is held a call returns it and calls no `Register`, and a call that gets a channel from
`Register` holds it. `WatchProperties` holds nothing: each call makes its own `Register`
on the path and interface of the binding, so that a sequence of calls of the two methods
on a binding that holds a channel makes one `Register` for every `WatchProperties` in
it, and no other call. -/
theorem getPropertiesSignal_caches {R : Type} :
    (∀ (PropertiesInterface : String) (a : Binding R) (c : Chan) (reply : Except Error Chan),
      a.propertiesSignal = some c →
      a.GetPropertiesSignal PropertiesInterface reply
        = { binding := a, calls := [], result := .ok c }) ∧
    (∀ (PropertiesInterface : String) (a : Binding R) (c : Chan),
      a.propertiesSignal = none →
      a.GetPropertiesSignal PropertiesInterface (.ok c)
        = { binding := { a with propertiesSignal := some c },
            calls := [.Register a.Path PropertiesInterface], result := .ok c }) ∧
    (∀ (a : Binding R) (reply : Except Error Chan),
      (a.WatchProperties reply).binding = a ∧
      (a.WatchProperties reply).calls = [.Register a.Path a.Interface]) ∧
    (∀ (PropertiesInterface : String) (a : Binding R) (c : Chan) (ops : List Subscribe),
      a.propertiesSignal = some c →
      Binding.subscribeAll PropertiesInterface a ops =
        (a, List.replicate (ops.countP Subscribe.isWatch)
          (.Register a.Path a.Interface))) := by
  refine ⟨?_, ?_, fun _ _ => ⟨rfl, rfl⟩, Binding.subscribeAll_held⟩
  · intro PI a c reply h
    unfold Binding.GetPropertiesSignal
    rw [h]
  · intro PI a c h
    unfold Binding.GetPropertiesSignal
    rw [h]
    rfl

/-- On the binding of the scenario holding the channel 3, three calls of
`GetPropertiesSignal` and one of `WatchProperties` make the one `Register` of
`WatchProperties`. -/
theorem getPropertiesSignal_caches_witness :
    Binding.subscribeAll "org.freedesktop.DBus.Properties"
      { Scenario.device with propertiesSignal := some 3 }
      [.GetPropertiesSignal (.ok 4), .WatchProperties (.ok 5), .GetPropertiesSignal (.ok 6),
        .GetPropertiesSignal (.error "down")]
      = ({ Scenario.device with propertiesSignal := some 3 },
          [.Register "/org/bluez/hci0/dev_AA_BB_CC_DD_EE_FF" "org.bluez.Device1"]) :=
  getPropertiesSignal_caches.2.2.2 "org.freedesktop.DBus.Properties"
    { Scenario.device with propertiesSignal := some 3 } 3
    [.GetPropertiesSignal (.ok 4), .WatchProperties (.ok 5), .GetPropertiesSignal (.ok 6),
      .GetPropertiesSignal (.error "down")] rfl

/-- C17, the counterexample: two calls of `WatchProperties` on one binding, with
nothing closed or unwatched in between, call `Register` twice for the same path and
interface. -/
theorem watchProperties_registers_each_time :
    (Binding.subscribeAll "org.freedesktop.DBus.Properties" Scenario.device
      [.WatchProperties (.ok 4), .WatchProperties (.ok 5)]).2
      = [.Register "/org/bluez/hci0/dev_AA_BB_CC_DD_EE_FF" "org.bluez.Device1",
          .Register "/org/bluez/hci0/dev_AA_BB_CC_DD_EE_FF" "org.bluez.Device1"] ∧
    (Binding.subscribeAll "org.freedesktop.DBus.Properties" Scenario.device
      [.WatchProperties (.ok 4), .WatchProperties (.ok 5)]).2.count
        (.Register Scenario.device.Path Scenario.device.Interface) = 2 := by
  decide

/-! ### What a change signal leaves alone -/

theorem WatchProperties.write_frame {R F : Type} (T : StructType R F) (hT : T.Lawful)
    (p r1 : R) (e : String × Val) (f : F) (hw : WatchProperties.write T p e = some r1)
    (hne : T.fieldName f ≠ e.1) : T.Interface r1 f = T.Interface p f := by
  cases hf : T.FieldByName e.1 with
  | none =>
    rw [WatchProperties.write_skip T p e (by simp [hf])] at hw
    injection hw with hw
    rw [hw]
  | some sf =>
    cases sf with
    | lock =>
      rw [WatchProperties.write_skip T p e (by simp [hf])] at hw
      injection hw with hw
      rw [hw]
    | exported g =>
      rw [WatchProperties.write_exported T p e g hf] at hw
      refine hT.interface_set_ne p g e.2 r1 f hw ?_
      intro hfg
      subst hfg
      exact hne (hT.name_of_found _ _ hf)

theorem WatchProperties.entry_properties {R F : Type} (T : StructType R F) (iface : String)
    (w : Watcher R) (e : String × Val) :
    (WatchProperties.entry T iface w e).Properties = w.Properties ∨
    ∃ r1, WatchProperties.write T w.Properties e = some r1 ∧
      (WatchProperties.entry T iface w e).Properties = r1 := by
  unfold WatchProperties.entry Watcher.send
  cases w.status
  · cases hw : WatchProperties.write T w.Properties e with
    | none => left; rfl
    | some r1 =>
      right
      refine ⟨r1, rfl, ?_⟩
      simp only
      split <;> rfl
  · left; rfl
  · left; rfl

theorem WatchProperties.foldl_entry_frame {R F : Type} (T : StructType R F) (hT : T.Lawful)
    (iface : String) (l : VariantMap) (w : Watcher R) (f : F)
    (hf : T.fieldName f ∉ l.map Prod.fst) :
    T.Interface (l.foldl (WatchProperties.entry T iface) w).Properties f
      = T.Interface w.Properties f := by
  induction l generalizing w with
  | nil => rfl
  | cons e l ih =>
    rw [List.map_cons, List.mem_cons, not_or] at hf
    rw [List.foldl_cons, ih _ hf.2]
    rcases WatchProperties.entry_properties T iface w e with h | ⟨r1, hw, h⟩
    · rw [h]
    · rw [h]
      exact WatchProperties.write_frame T hT _ r1 e f hw hf.1

theorem WatchProperties.foldl_entry_sent_names {R F : Type} (T : StructType R F)
    (iface : String) (l : VariantMap) (w : Watcher R) :
    ∃ done : VariantMap, (∀ x ∈ done, x ∈ l) ∧
      (l.foldl (WatchProperties.entry T iface) w).events
        = w.events ++ done.map (fun e => some ⟨iface, e.1, e.2⟩) := by
  induction l generalizing w with
  | nil => exact ⟨[], by simp, by simp⟩
  | cons e l ih =>
    obtain ⟨done, hsub, hdone⟩ := ih (WatchProperties.entry T iface w e)
    rw [List.foldl_cons, hdone]
    rcases WatchProperties.entry_sent T iface w e with hs | ⟨r1, _, hs⟩
    · exact ⟨done, fun x hx => List.mem_cons_of_mem _ (hsub x hx),
        by simp [Watcher.events, hs]⟩
    · refine ⟨e :: done, ?_, by simp [Watcher.events, hs]⟩
      intro x hx
      rcases List.mem_cons.1 hx with rfl | hx
      · exact List.mem_cons_self _ _
      · exact List.mem_cons_of_mem _ (hsub x hx)

/-- The step reads the first two elements of the body only. -/
theorem WatchProperties.step_body_rest {R F : Type} (T : StructType R F)
    (PropertiesChanged : String) (cfg : Config) (range : MapRange) (w : Watcher R)
    (sig : Signal) (b0 b1 : BodyVal) (rest1 rest2 : List BodyVal) :
    WatchProperties.step T PropertiesChanged cfg range w
        (some { sig with Body := b0 :: b1 :: rest1 })
      = WatchProperties.step T PropertiesChanged cfg range w
        (some { sig with Body := b0 :: b1 :: rest2 }) := by
  rfl

/-- A field that the changed map of a signal does not name keeps its value through the
step, and no event of the step bears its name. -/
theorem WatchProperties.step_frame {R F : Type} (T : StructType R F) (hT : T.Lawful)
    (PropertiesChanged : String) (cfg : Config) (range : MapRange) (hrange : range.Valid)
    (w : Watcher R) (sig : Signal) (changes : VariantMap) (f : F)
    (h1 : sig.Body.get? 1 = some (.mapStringVariant changes))
    (hf : T.fieldName f ∉ changes.map Prod.fst) :
    T.Interface (WatchProperties.step T PropertiesChanged cfg range w (some sig)).Properties f
      = T.Interface w.Properties f ∧
    ∃ new : List (Option PropertyChanged),
      (WatchProperties.step T PropertiesChanged cfg range w (some sig)).events
        = w.events ++ new ∧
      ∀ ev, some ev ∈ new → ev.Name ≠ T.fieldName f := by
  rcases WatchProperties.step_cases T PropertiesChanged cfg range w (some sig) with
    hs | hs | hs | ⟨s, iface, changes1, hs1, _, _, _, _, h1', hs⟩
  · rw [hs]; exact ⟨rfl, [], by simp, by simp⟩
  · rw [hs]; exact ⟨rfl, [], by simp [Watcher.events], by simp⟩
  · rw [hs]; exact ⟨rfl, [], by simp [Watcher.events], by simp⟩
  · injection hs1 with hs1
    subst hs1
    rw [h1] at h1'
    simp only [Option.some.injEq, BodyVal.mapStringVariant.injEq] at h1'
    subst h1'
    have hperm := hrange changes
    have hf' : T.fieldName f ∉ (range changes).map Prod.fst := fun hmem =>
      hf ((hperm.map Prod.fst).mem_iff.1 hmem)
    rw [hs]
    refine ⟨WatchProperties.foldl_entry_frame T hT iface _ w f hf', ?_⟩
    obtain ⟨done, hsub, hdone⟩ := WatchProperties.foldl_entry_sent_names T iface
      (range changes) w
    refine ⟨_, hdone, ?_⟩
    intro ev hev
    rw [List.mem_map] at hev
    obtain ⟨x, hx, hxe⟩ := hev
    injection hxe with hxe
    subst hxe
    intro hname
    exact hf' (hname ▸ List.mem_map_of_mem Prod.fst (hsub x hx))

/-- C18: the loop of `WatchProperties`, of `Device1` and of `PhonebookAccess1`, never
reads the invalidated list. Two signals that differ only in what follows the changed map
in the body (an invalidated list, another one, or nothing) give the same state after the
step, so the same struct and the same events; and a field that the changed map does not
name, be it named in the invalidated list, keeps its value, and no event of the step
bears its name. -/
theorem watchProperties_ignores_invalidated :
    ((∀ (PropertiesChanged : String) (cfg : Config) (range : MapRange)
        (w : Watcher Device1Properties) (sig : Signal) (b0 b1 : BodyVal)
        (rest1 rest2 : List BodyVal),
        Device1.WatchProperties.step PropertiesChanged cfg range w
            (some { sig with Body := b0 :: b1 :: rest1 })
          = Device1.WatchProperties.step PropertiesChanged cfg range w
            (some { sig with Body := b0 :: b1 :: rest2 })) ∧
      (∀ (PropertiesChanged : String) (cfg : Config) (range : MapRange)
        (w : Watcher Device1Properties) (sig : Signal) (changes : VariantMap)
        (f : Device1Field),
        range.Valid → sig.Body.get? 1 = some (.mapStringVariant changes) →
        f.fieldName ∉ changes.map Prod.fst →
        (Device1.WatchProperties.step PropertiesChanged cfg range w
            (some sig)).Properties.Interface f = w.Properties.Interface f ∧
        ∃ new : List (Option PropertyChanged),
          (Device1.WatchProperties.step PropertiesChanged cfg range w (some sig)).events
            = w.events ++ new ∧
          ∀ ev, some ev ∈ new → ev.Name ≠ f.fieldName)) ∧
    ((∀ (PropertiesChanged : String) (cfg : Config) (range : MapRange)
        (w : Watcher PhonebookAccess1Properties) (sig : Signal) (b0 b1 : BodyVal)
        (rest1 rest2 : List BodyVal),
        PhonebookAccess1.WatchProperties.step PropertiesChanged cfg range w
            (some { sig with Body := b0 :: b1 :: rest1 })
          = PhonebookAccess1.WatchProperties.step PropertiesChanged cfg range w
            (some { sig with Body := b0 :: b1 :: rest2 })) ∧
      (∀ (PropertiesChanged : String) (cfg : Config) (range : MapRange)
        (w : Watcher PhonebookAccess1Properties) (sig : Signal) (changes : VariantMap)
        (f : PhonebookAccess1Field),
        range.Valid → sig.Body.get? 1 = some (.mapStringVariant changes) →
        f.fieldName ∉ changes.map Prod.fst →
        (PhonebookAccess1.WatchProperties.step PropertiesChanged cfg range w
            (some sig)).Properties.Interface f = w.Properties.Interface f ∧
        ∃ new : List (Option PropertyChanged),
          (PhonebookAccess1.WatchProperties.step PropertiesChanged cfg range w
            (some sig)).events = w.events ++ new ∧
          ∀ ev, some ev ∈ new → ev.Name ≠ f.fieldName)) :=
  ⟨⟨fun PC cfg range w sig b0 b1 rest1 rest2 =>
      WatchProperties.step_body_rest Device1Properties.reflect PC cfg range w sig b0 b1
        rest1 rest2,
    fun PC cfg range w sig changes f hrange h1 hf =>
      WatchProperties.step_frame Device1Properties.reflect device1Properties_lawful PC cfg
        range hrange w sig changes f h1 hf⟩,
   ⟨fun PC cfg range w sig b0 b1 rest1 rest2 =>
      WatchProperties.step_body_rest PhonebookAccess1Properties.reflect PC cfg range w sig
        b0 b1 rest1 rest2,
    fun PC cfg range w sig changes f hrange h1 hf =>
      WatchProperties.step_frame PhonebookAccess1Properties.reflect
        phonebookAccess1Properties_lawful PC cfg range hrange w sig changes f h1 hf⟩⟩

/-- A signal that changes `Connected` and lists `RSSI` as invalidated leaves `RSSI` at
-67. -/
theorem watchProperties_ignores_invalidated_witness :
    (Device1.WatchProperties.step Scenario.PropertiesChanged Scenario.cfg id
      (WatchProperties.start Scenario.props)
      (some { Scenario.changed "org.bluez.Device1" [("Connected", .bool true)] with
        Body := [.string "org.bluez.Device1", .mapStringVariant [("Connected", .bool true)],
          .stringSlice ["RSSI"]] })).Properties.Interface .RSSI = .int16 (-67) :=
  (watchProperties_ignores_invalidated.1.2 Scenario.PropertiesChanged Scenario.cfg id
    (WatchProperties.start Scenario.props)
    { Scenario.changed "org.bluez.Device1" [("Connected", .bool true)] with
      Body := [.string "org.bluez.Device1", .mapStringVariant [("Connected", .bool true)],
        .stringSlice ["RSSI"]] }
    [("Connected", .bool true)] .RSSI (fun m => List.Perm.refl m) rfl (by decide)).1

/-! ### The bulk fill and its round trip -/

theorem device1Properties_eq_of_interface (r r1 : Device1Properties)
    (h : ∀ f, r.Interface f = r1.Interface f) : r = r1 := by
  cases r
  cases r1
  have h1 := h .Appearance
  have h2 := h .UUIDs
  have h3 := h .Connected
  have h4 := h .RSSI
  have h5 := h .ServicesResolved
  have h6 := h .AdvertisingFlags
  have h7 := h .Alias
  have h8 := h .AdvertisingData
  have h9 := h .ManufacturerData
  have h10 := h .ServiceData
  have h11 := h .Address
  have h12 := h .Icon
  have h13 := h .Class
  have h14 := h .Trusted
  have h15 := h .Blocked
  have h16 := h .TxPower
  have h17 := h .AddressType
  have h18 := h .Name
  have h19 := h .Paired
  have h20 := h .Adapter
  have h21 := h .LegacyPairing
  have h22 := h .Modalias
  clear h
  simp only [Device1Properties.Interface] at *
  simp_all

theorem phonebookAccess1Properties_eq_of_interface (r r1 : PhonebookAccess1Properties)
    (h : ∀ f, r.Interface f = r1.Interface f) : r = r1 := by
  cases r
  cases r1
  have h1 := h .FixedImageSize
  have h2 := h .Folder
  have h3 := h .DatabaseIdentifier
  have h4 := h .PrimaryCounter
  have h5 := h .SecondaryCounter
  clear h
  simp only [PhonebookAccess1Properties.Interface] at *
  simp_all

theorem device1Properties_toMap_lookup (p : Device1Properties) (f : Device1Field) :
    p.ToMap.lookup f.fieldName = some (p.Interface f) := by
  cases f <;> rfl

theorem phonebookAccess1Properties_toMap_lookup (p : PhonebookAccess1Properties)
    (f : PhonebookAccess1Field) : p.ToMap.lookup f.fieldName = some (p.Interface f) := by
  cases f <;> rfl

/-- The decoding of entries with pairwise different keys, in which every entry that
names an exported field carries a value of its type: no error, every named field holds
the value of its entry, every other field is untouched. -/
theorem MapToStruct.foldl_entry_ok {R F : Type} (T : StructType R F) (hT : T.Lawful)
    (l : VariantMap) (s : R) (hnodup : (l.map Prod.fst).Nodup)
    (htyped : ∀ e ∈ l, ∀ f, T.FieldByName e.1 = some (.exported f) →
      e.2.typeOf = some (T.fieldType f)) :
    (l.foldl (MapToStruct.entry T) (s, none)).2 = none ∧
    (∀ e ∈ l, ∀ f, T.FieldByName e.1 = some (.exported f) →
      T.Interface (l.foldl (MapToStruct.entry T) (s, none)).1 f = e.2) ∧
    (∀ f, T.fieldName f ∉ l.map Prod.fst →
      T.Interface (l.foldl (MapToStruct.entry T) (s, none)).1 f = T.Interface s f) := by
  induction l generalizing s with
  | nil => exact ⟨rfl, by simp, by simp⟩
  | cons e l ih =>
    rw [List.map_cons, List.nodup_cons] at hnodup
    have hstep : ∃ s1, MapToStruct.entry T (s, none) e = (s1, none) ∧
        (∀ f, T.FieldByName e.1 = some (.exported f) → T.Interface s1 f = e.2) ∧
        (∀ f, T.fieldName f ≠ e.1 → T.Interface s1 f = T.Interface s f) := by
      unfold MapToStruct.entry
      cases hf : T.FieldByName e.1 with
      | none => exact ⟨s, rfl, by simp, fun _ _ => rfl⟩
      | some sf =>
        cases sf with
        | lock => exact ⟨s, rfl, by simp, fun _ _ => rfl⟩
        | exported g =>
          have hty := htyped e (List.mem_cons_self _ _) g hf
          obtain ⟨r1, hr1⟩ := Option.isSome_iff_exists.1 ((hT.set_isSome s g e.2).2 hty)
          refine ⟨r1, by simp [hr1], ?_, ?_⟩
          · intro f hfe
            injection hfe with hfe
            injection hfe with hfe
            subst hfe
            exact hT.interface_set _ _ _ _ hr1
          · intro f hne
            refine hT.interface_set_ne _ _ _ _ f hr1 ?_
            intro hfg
            subst hfg
            exact hne (hT.name_of_found _ _ hf)
    obtain ⟨s1, hs1, hsame, hother⟩ := hstep
    rw [List.foldl_cons, hs1]
    obtain ⟨ih1, ih2, ih3⟩ := ih s1 hnodup.2
      (fun e1 he1 => htyped e1 (List.mem_cons_of_mem _ he1))
    refine ⟨ih1, ?_, ?_⟩
    · intro e1 he1 f hf
      rcases List.mem_cons.1 he1 with rfl | hmem
      · rw [ih3 f (by rw [hT.name_of_found _ _ hf]; exact hnodup.1)]
        exact hsame f hf
      · exact ih2 e1 hmem f hf
    · intro f hf
      rw [List.map_cons, List.mem_cons, not_or] at hf
      rw [ih3 f hf.2]
      exact hother f hf.1

/-- The bulk fill of a well-typed map of declared properties, and of the same map with
undeclared keys added. -/
theorem MapToStruct.roundTrip {R F : Type} (T : StructType R F) (hT : T.Lawful)
    (hext : ∀ r r1 : R, (∀ f, T.Interface r f = T.Interface r1 f) → r = r1) (zero : R) :
    (∀ (range : MapRange) (M : VariantMap), range.Valid → (M.map Prod.fst).Nodup →
      (∀ e ∈ M, ∃ f, T.FieldByName e.1 = some (.exported f) ∧
        e.2.typeOf = some (T.fieldType f)) →
      (MapToStruct T range zero M).2 = none ∧
      ∀ e ∈ M, ∀ f, T.FieldByName e.1 = some (.exported f) →
        T.Interface (MapToStruct T range zero M).1 f = e.2) ∧
    (∀ (range range1 : MapRange) (M M1 : VariantMap), range.Valid → range1.Valid →
      (M.map Prod.fst).Nodup → (M1.map Prod.fst).Nodup →
      (∀ e ∈ M, ∃ f, T.FieldByName e.1 = some (.exported f) ∧
        e.2.typeOf = some (T.fieldType f)) →
      (∀ e, e ∈ M ↔ e ∈ M1 ∧ ∃ f, T.FieldByName e.1 = some (.exported f)) →
      MapToStruct T range1 zero M1 = MapToStruct T range zero M) := by
  have typed_of : ∀ M : VariantMap,
      (∀ e ∈ M, ∃ f, T.FieldByName e.1 = some (.exported f) ∧
        e.2.typeOf = some (T.fieldType f)) →
      ∀ e ∈ M, ∀ f, T.FieldByName e.1 = some (.exported f) →
        e.2.typeOf = some (T.fieldType f) := by
    intro M h e he f hf
    obtain ⟨g, hg, hty⟩ := h e he
    rw [hf] at hg
    injection hg with hg
    injection hg with hg
    rw [hg]
    exact hty
  have ok : ∀ (range : MapRange) (M : VariantMap), range.Valid → (M.map Prod.fst).Nodup →
      (∀ e ∈ M, ∀ f, T.FieldByName e.1 = some (.exported f) →
        e.2.typeOf = some (T.fieldType f)) →
      (MapToStruct T range zero M).2 = none ∧
      (∀ e ∈ M, ∀ f, T.FieldByName e.1 = some (.exported f) →
        T.Interface (MapToStruct T range zero M).1 f = e.2) ∧
      (∀ f, T.fieldName f ∉ M.map Prod.fst →
        T.Interface (MapToStruct T range zero M).1 f = T.Interface zero f) := by
    intro range M hrange hnodup htyped
    have hperm := hrange M
    obtain ⟨a, b, c⟩ := MapToStruct.foldl_entry_ok T hT (range M) zero
      ((hperm.map Prod.fst).nodup_iff.2 hnodup)
      (fun e he => htyped e (hperm.mem_iff.1 he))
    exact ⟨a, fun e he => b e (hperm.mem_iff.2 he),
      fun f hf => c f (fun hmem => hf ((hperm.map Prod.fst).mem_iff.1 hmem))⟩
  constructor
  · intro range M hrange hnodup htyped
    obtain ⟨a, b, _⟩ := ok range M hrange hnodup (typed_of M htyped)
    exact ⟨a, b⟩
  · intro range range1 M M1 hrange hrange1 hnodup hnodup1 htyped hsub
    obtain ⟨a, b, c⟩ := ok range M hrange hnodup (typed_of M htyped)
    obtain ⟨a1, b1, c1⟩ := ok range1 M1 hrange1 hnodup1
      (fun e he f hf => typed_of M htyped e ((hsub e).2 ⟨he, f, hf⟩) f hf)
    refine Prod.ext (hext _ _ ?_) (a1.trans a.symm)
    intro f
    by_cases hmem : T.fieldName f ∈ M.map Prod.fst
    · obtain ⟨e, he, hname⟩ := List.mem_map.1 hmem
      have hfound : T.FieldByName e.1 = some (.exported f) := by
        rw [hname]
        exact hT.found_of_name f
      rw [b e he f hfound, b1 e ((hsub e).1 he).1 f hfound]
    · have hmem1 : T.fieldName f ∉ M1.map Prod.fst := by
        intro h1
        obtain ⟨e, he, hname⟩ := List.mem_map.1 h1
        have hfound : T.FieldByName e.1 = some (.exported f) := by
          rw [hname]
          exact hT.found_of_name f
        exact hmem (hname ▸ List.mem_map_of_mem Prod.fst ((hsub e).2 ⟨he, f, hfound⟩))
      rw [c f hmem, c1 f hmem1]

/-- C14: the bulk fill and its round trip, against `util.MapToStruct` and `structs.Map`
as the specification describes them, for `Device1Properties` and for
`PhonebookAccess1Properties`. For a map `M` with pairwise different keys, all of them
declared properties with values of the declared types, `FromDBusMap` returns no error and
`ToMap` of its struct holds at every key of `M` the value of `M`; and for a map `M1` that
holds the entries of `M` and otherwise keys that are not declared properties,
`FromDBusMap` returns what it returns on `M`. -/
theorem fromDBusMap_toMap_roundTrip :
    ((∀ (range : MapRange) (M : VariantMap), range.Valid → (M.map Prod.fst).Nodup →
        (∀ e ∈ M, ∃ f, Device1Properties.FieldByName e.1 = some (.exported f) ∧
          e.2.typeOf = some f.fieldType) →
        (Device1Properties.FromDBusMap range M).2 = none ∧
        ∀ e ∈ M, (Device1Properties.FromDBusMap range M).1.ToMap.lookup e.1 = some e.2) ∧
      (∀ (range range1 : MapRange) (M M1 : VariantMap), range.Valid → range1.Valid →
        (M.map Prod.fst).Nodup → (M1.map Prod.fst).Nodup →
        (∀ e ∈ M, ∃ f, Device1Properties.FieldByName e.1 = some (.exported f) ∧
          e.2.typeOf = some f.fieldType) →
        (∀ e, e ∈ M ↔
          e ∈ M1 ∧ ∃ f, Device1Properties.FieldByName e.1 = some (.exported f)) →
        Device1Properties.FromDBusMap range1 M1 = Device1Properties.FromDBusMap range M)) ∧
    ((∀ (range : MapRange) (M : VariantMap), range.Valid → (M.map Prod.fst).Nodup →
        (∀ e ∈ M, ∃ f, PhonebookAccess1Properties.FieldByName e.1 = some (.exported f) ∧
          e.2.typeOf = some f.fieldType) →
        (PhonebookAccess1Properties.FromDBusMap range M).2 = none ∧
        ∀ e ∈ M,
          (PhonebookAccess1Properties.FromDBusMap range M).1.ToMap.lookup e.1 = some e.2) ∧
      (∀ (range range1 : MapRange) (M M1 : VariantMap), range.Valid → range1.Valid →
        (M.map Prod.fst).Nodup → (M1.map Prod.fst).Nodup →
        (∀ e ∈ M, ∃ f, PhonebookAccess1Properties.FieldByName e.1 = some (.exported f) ∧
          e.2.typeOf = some f.fieldType) →
        (∀ e, e ∈ M ↔
          e ∈ M1 ∧ ∃ f, PhonebookAccess1Properties.FieldByName e.1 = some (.exported f)) →
        PhonebookAccess1Properties.FromDBusMap range1 M1
          = PhonebookAccess1Properties.FromDBusMap range M)) := by
  have hD := MapToStruct.roundTrip Device1Properties.reflect device1Properties_lawful
    device1Properties_eq_of_interface Device1Properties.zero
  have hP := MapToStruct.roundTrip PhonebookAccess1Properties.reflect
    phonebookAccess1Properties_lawful phonebookAccess1Properties_eq_of_interface
    PhonebookAccess1Properties.zero
  refine ⟨⟨?_, hD.2⟩, ⟨?_, hP.2⟩⟩
  · intro range M hrange hnodup htyped
    obtain ⟨a, b⟩ := hD.1 range M hrange hnodup htyped
    refine ⟨a, ?_⟩
    intro e he
    obtain ⟨f, hf, _⟩ := htyped e he
    have hname : f.fieldName = e.1 := device1Properties_lawful.name_of_found _ _ hf
    rw [← hname, device1Properties_toMap_lookup]
    exact congrArg some (b e he f hf)
  · intro range M hrange hnodup htyped
    obtain ⟨a, b⟩ := hP.1 range M hrange hnodup htyped
    refine ⟨a, ?_⟩
    intro e he
    obtain ⟨f, hf, _⟩ := htyped e he
    have hname : f.fieldName = e.1 := phonebookAccess1Properties_lawful.name_of_found _ _ hf
    rw [← hname, phonebookAccess1Properties_toMap_lookup]
    exact congrArg some (b e he f hf)

/-- The first scenario: the five announced properties are decoded without an error and
read back from `ToMap`, here the address and the signal strength. -/
theorem fromDBusMap_toMap_roundTrip_witness :
    (Device1Properties.FromDBusMap List.reverse
      [("Address", .string "AA:BB:CC:DD:EE:FF"), ("Connected", .bool false),
        ("RSSI", .int16 (-67)), ("Paired", .bool true),
        ("UUIDs", .stringSlice ["0000110b-0000-1000-8000-00805f9b34fb"])]).2 = none ∧
    (Device1Properties.FromDBusMap List.reverse
      [("Address", .string "AA:BB:CC:DD:EE:FF"), ("Connected", .bool false),
        ("RSSI", .int16 (-67)), ("Paired", .bool true),
        ("UUIDs", .stringSlice ["0000110b-0000-1000-8000-00805f9b34fb"])]).1.ToMap.lookup
        "Address" = some (.string "AA:BB:CC:DD:EE:FF") ∧
    (Device1Properties.FromDBusMap List.reverse
      [("Address", .string "AA:BB:CC:DD:EE:FF"), ("Connected", .bool false),
        ("RSSI", .int16 (-67)), ("Paired", .bool true),
        ("UUIDs", .stringSlice ["0000110b-0000-1000-8000-00805f9b34fb"])]).1.ToMap.lookup
        "RSSI" = some (.int16 (-67)) := by
  have h := fromDBusMap_toMap_roundTrip.1.1 List.reverse
    [("Address", .string "AA:BB:CC:DD:EE:FF"), ("Connected", .bool false),
      ("RSSI", .int16 (-67)), ("Paired", .bool true),
      ("UUIDs", .stringSlice ["0000110b-0000-1000-8000-00805f9b34fb"])]
    (fun m => List.reverse_perm m) (by decide)
    (by
      intro e he
      rcases List.mem_cons.1 he with rfl | he
      · exact ⟨.Address, by decide, rfl⟩
      rcases List.mem_cons.1 he with rfl | he
      · exact ⟨.Connected, by decide, rfl⟩
      rcases List.mem_cons.1 he with rfl | he
      · exact ⟨.RSSI, by decide, rfl⟩
      rcases List.mem_cons.1 he with rfl | he
      · exact ⟨.Paired, by decide, rfl⟩
      rcases List.mem_cons.1 he with rfl | he
      · exact ⟨.UUIDs, by decide, rfl⟩
      · exact absurd he (List.not_mem_nil _))
  exact ⟨h.1, h.2 ("Address", .string "AA:BB:CC:DD:EE:FF") (by decide),
    h.2 ("RSSI", .int16 (-67)) (by decide)⟩

end Bluez
